import Mathlib

/-!
Verification of the zhos kernel specification against its C sources.

The development shallowly embeds the kernel data structures and the
operations the claims concern:

* counting semaphore and recursive mutex (sem.c / mutex.c),
* the TTY input FIFO and keyboard input path (tty.c),
* the bitmap physical-page allocator, two-level page tables and the
  user-address-space operations (memory.c),
* the GDT descriptor allocator (cpu.c),
* the task structures, scheduler queues and the process-lifecycle
  system calls fork / wait / execve / sbrk / msleep (task.c, memory.c),
* the ELF32 image loader (task.c, elf.h).

Machine integers are modelled as Nat with explicit two-to-the-32 wrapping
where the C code relies on unsigned arithmetic; C int results are Int.
Headers of the repository that are not part of the provided sources
(memory.h, klib, tty.h, the filesystem) are modelled from the
specification; each such definition carries a doc comment saying so.
Page byte contents are outside the model: the kernel memcpy calls move
bytes that none of the verified properties observe, while every
allocation, mapping and control-flow decision is embedded faithfully.
-/

set_option maxRecDepth 40000

namespace ZhOS

/-! ## Configuration constants (os_cfg.h, cpu.h, syscall.h) -/

/-- OS_TICK_MS from os_cfg.h: milliseconds per timer tick. -/
def OS_TICK_MS : Nat := 10

/-- TASK_NR from os_cfg.h: size of the task pool. -/
def TASK_NR : Nat := 128

/-- GDT_TABLE_SIZE from os_cfg.h. -/
def GDT_TABLE_SIZE : Nat := 256

/-- TASK_NAME_SIZE from task.h. -/
def TASK_NAME_SIZE : Nat := 32

/-- TASK_TIME_SLICE_DEFAULT from task.h. -/
def TASK_TIME_SLICE_DEFAULT : Int := 10

/-- TASK_OFILE_NR from task.h. -/
def TASK_OFILE_NR : Nat := 128

/-- SYSCALL_PARAM_COUNT from syscall.h. -/
def SYSCALL_PARAM_COUNT : Nat := 5

/-- SEG_P_PRESENT from cpu.h: the present bit of a descriptor attribute. -/
def SEG_P_PRESENT : Nat := 128

/-- KERNEL_SELECTOR_DS from os_cfg.h. -/
def KERNEL_SELECTOR_DS : Nat := 16

/-- EFLAGS_DEFAULT with EFLAGS_IF, as used by tss_init and sys_execve. -/
def EFLAGS_DEFAULT_IF : Nat := 2 + 512

/-- Reinterpretation of a uint32_t value as a C int, used where the kernel
stores an unsigned function result into an int variable (sbrk, execve,
load_phdr all do this with the result of memory_alloc_for_page_dir). -/
def int_of_uint32 (v : Nat) : Int := if v < 2 ^ 31 then (v : Int) else (v : Int) - 2 ^ 32

/-- Value of the expression (uint32_t)-1, which the uint32_t-returning
functions memory_copy_uvm and memory_alloc_for_page_dir produce with
a C return -1 statement. -/
def uint32_neg1 : Nat := 4294967295

/-! ## Counting semaphore (sem.c, sem.h)

The sem_t structure is the one from sem.h: an int count and a FIFO wait
list.  Tasks are identified by their address, a Nat.  The scheduler side
effects of blocking (task_set_block + task_dispatch) and waking
(task_set_ready + task_dispatch) are abstracted into the returned
Bool (the caller blocked) and Option Nat (the task popped and readied);
the wait-queue bookkeeping itself is embedded exactly. -/

structure sem_t where
  count : Int
  wait_list : List Nat
deriving DecidableEq, Repr

/-- sem_init from sem.c. -/
def sem_init (init_count : Int) : sem_t := { count := init_count, wait_list := [] }

/-- sem_wait from sem.c: with count positive, decrement and return
(second component false); otherwise the caller is appended to the wait
queue and blocks (second component true). -/
def sem_wait (sem : sem_t) (curr : Nat) : sem_t × Bool :=
  if 0 < sem.count then
    ({ sem with count := sem.count - 1 }, false)
  else
    ({ sem with wait_list := sem.wait_list ++ [curr] }, true)

/-- sem_notify from sem.c: with a non-empty wait queue, pop the FIFO head
and ready it (returned as the second component); otherwise increment the
count. -/
def sem_notify (sem : sem_t) : sem_t × Option Nat :=
  match sem.wait_list with
  | [] => ({ sem with count := sem.count + 1 }, none)
  | t :: rest => ({ sem with wait_list := rest }, some t)

/-- sem_count from sem.c: read the current count. -/
def sem_count (sem : sem_t) : Int := sem.count

/-! ## Recursive mutex (mutex.c, mutex.h) -/

structure mutex_t where
  owner : Option Nat
  locked_count : Int
  wait_list : List Nat
deriving DecidableEq, Repr

/-- mutex_init from mutex.c. -/
def mutex_init : mutex_t := { owner := none, locked_count := 0, wait_list := [] }

/-- mutex_lock from mutex.c.  Branch 1: free mutex, take it.  Branch 2:
already owned by the caller, recursive count increment.  Branch 3: owned
by another task, append the caller to the wait queue and block (second
component true). -/
def mutex_lock (mutex : mutex_t) (curr : Nat) : mutex_t × Bool :=
  if mutex.locked_count = 0 then
    ({ owner := some curr, locked_count := mutex.locked_count + 1,
       wait_list := mutex.wait_list }, false)
  else if mutex.owner = some curr then
    ({ mutex with locked_count := mutex.locked_count + 1 }, false)
  else
    ({ mutex with wait_list := mutex.wait_list ++ [curr] }, true)

/-- mutex_unlock from mutex.c.  Only the owner may unlock; when the count
reaches zero and the wait queue is non-empty, the FIFO head is removed,
made owner with count one and readied (second component). -/
def mutex_unlock (mutex : mutex_t) (curr : Nat) : mutex_t × Option Nat :=
  if mutex.owner = some curr then
    if mutex.locked_count - 1 = 0 then
      match mutex.wait_list with
      | [] => ({ owner := none, locked_count := mutex.locked_count - 1, wait_list := [] }, none)
      | t :: rest => ({ owner := some t, locked_count := 1, wait_list := rest }, some t)
    else
      ({ mutex with locked_count := mutex.locked_count - 1 }, none)
  else
    (mutex, none)

/-! ## TTY input FIFO and keyboard input path (tty.c) -/

/-- Modelled from the spec: TTY_IBUF_SIZE lives in dev/tty.h, which is not
among the provided sources.  The spec fixes only that the input FIFO is a
bounded circular buffer of this capacity; the claims hold for any positive
value, and 512 is used here. -/
def TTY_IBUF_SIZE : Nat := 512

/-- Buffer descriptor from tty.h as used by tty.c: backing bytes, size,
fill count and the two circular cursors. -/
structure tty_fifo_t where
  buf : List Nat
  size : Nat
  count : Nat
  read : Nat
  write : Nat
deriving DecidableEq, Repr

/-- tty_fifo_init from tty.c. -/
def tty_fifo_init (buf : List Nat) (size : Nat) : tty_fifo_t :=
  { buf := buf, size := size, count := 0, read := 0, write := 0 }

/-- tty_fifo_put from tty.c: fails with -1 when the buffer is full,
otherwise stores the byte at the write cursor, advances it circularly and
increments the count. -/
def tty_fifo_put (fifo : tty_fifo_t) (c : Nat) : tty_fifo_t × Int :=
  if fifo.size ≤ fifo.count then
    (fifo, -1)
  else
    let buf2 := fifo.buf.set fifo.write c
    let w := fifo.write + 1
    let w2 := if fifo.size ≤ w then 0 else w
    ({ fifo with buf := buf2, write := w2, count := fifo.count + 1 }, 0)

/-- tty_fifo_get from tty.c. -/
def tty_fifo_get (fifo : tty_fifo_t) : tty_fifo_t × Option Nat :=
  if fifo.count = 0 then
    (fifo, none)
  else
    let c := fifo.buf.getD fifo.read 0
    let r := fifo.read + 1
    let r2 := if fifo.size ≤ r then 0 else r
    ({ fifo with read := r2, count := fifo.count - 1 }, some c)

/-- Input half of the tty_t structure from tty.h as used by tty_in: the
input FIFO and its counting semaphore.  The output FIFO, its semaphore
and the mode flags exist in the C structure but are not touched by
tty_in and are omitted. -/
structure tty_t where
  ififo : tty_fifo_t
  isem : sem_t
deriving DecidableEq, Repr

/-- tty_in from tty.c, acting on the currently focused TTY: when the input
semaphore already counts TTY_IBUF_SIZE or more bytes the byte is dropped
with no state change and no error; otherwise the byte is put into the
input FIFO (the put result is ignored by the C code) and the input
semaphore is notified. -/
def tty_in (tty : tty_t) (ch : Nat) : tty_t :=
  if (TTY_IBUF_SIZE : Int) ≤ sem_count tty.isem then
    tty
  else
    let fr := tty_fifo_put tty.ififo ch
    let sr := sem_notify tty.isem
    { ififo := fr.1, isem := sr.1 }

/-! ## Physical and virtual memory manager (memory.c, mmu.h)

Physical RAM is modelled at page-table granularity: a Ram value maps a
physical page address and an entry index to the 32-bit table entry
stored there.  Page byte contents (kernel_memcpy targets, file data) are
not observed by any verified property and are not modelled; every
allocator and page-table state change is. -/

/-- MEM_PAGE_SIZE: modelled from the spec (memory.h is not among the
provided sources); pages are 4 KiB. -/
def MEM_PAGE_SIZE : Nat := 4096

/-- MEMORY_TASK_BASE: modelled from the spec; user space starts at the
2 GiB boundary 0x80000000. -/
def MEMORY_TASK_BASE : Nat := 0x80000000

/-- MEM_EXT_START: modelled from the spec; the physical allocator covers
RAM from 1 MiB up. -/
def MEM_EXT_START : Nat := 0x100000

/-- MEM_TASK_STACK_TOP: modelled from the spec; the user stack top is a
fixed high address (memory.h is not among the provided sources; the
claims do not depend on the concrete value). -/
def MEM_TASK_STACK_TOP : Nat := 0xE0000000

/-- MEM_TASK_STACK_SIZE: modelled from the spec; a fixed number of stack
pages below the stack top. -/
def MEM_TASK_STACK_SIZE : Nat := 2 * MEM_PAGE_SIZE

/-- MEM_TASK_ARG_SIZE: modelled from the spec; the reserved argument area
just below the stack top. -/
def MEM_TASK_ARG_SIZE : Nat := MEM_PAGE_SIZE

/-- PDE_CNT and PTE_CNT from mmu.h. -/
def PDE_CNT : Nat := 1024

/-- PTE_CNT from mmu.h. -/
def PTE_CNT : Nat := 1024

/-- PTE_P from mmu.h. -/
def PTE_P : Nat := 1

/-- PTE_W from mmu.h. -/
def PTE_W : Nat := 2

/-- PTE_U from mmu.h. -/
def PTE_U : Nat := 4

/-- pde_index from mmu.h: the top ten address bits. -/
def pde_index (vaddr : Nat) : Nat := (vaddr >>> 22) % 1024

/-- pte_index from mmu.h: the middle ten address bits. -/
def pte_index (vaddr : Nat) : Nat := (vaddr >>> 12) % 1024

/-- Present bit test on a 32-bit table entry (the pde_t / pte_t bit
field present of mmu.h). -/
def entry_present (v : Nat) : Bool := v % 2 = 1

/-- pde_paddr and pte_paddr from mmu.h: the entry with the low twelve
bits cleared. -/
def entry_paddr (v : Nat) : Nat := (v >>> 12) <<< 12

/-- get_pte_perm from mmu.h: the low nine bits of the entry. -/
def get_pte_perm (v : Nat) : Nat := v % 512

/-- First user-space directory index, pde_index(MEMORY_TASK_BASE) = 512. -/
def user_pde_start : Nat := pde_index MEMORY_TASK_BASE

/-- Physical memory as seen through page tables: address of a table page,
entry index, entry value. -/
def Ram : Type := Nat → Nat → Nat

/-- Read a table entry. -/
def ram_get (r : Ram) (addr idx : Nat) : Nat := r addr idx

/-- Write one table entry. -/
def ram_set_entry (r : Ram) (addr idx v : Nat) : Ram :=
  fun a i => if a = addr ∧ i = idx then v else r a i

/-- kernel_memset of a whole table page to zero. -/
def ram_zero_page (r : Ram) (addr : Nat) : Ram :=
  fun a i => if a = addr then 0 else r a i

/-- Contents of the kernel page directory built once at boot by
create_kernel_table.  Its entries are copied into the kernel half of
every process directory; none of the verified user-space operations read
them back, so the boot-time contents are modelled as a fixed map. -/
def kernel_page_dir_entry : Nat → Nat := fun _ => 0

/-! ### Bitmap allocator (memory.c; the bitmap helpers live in klib,
which is not among the provided sources, and are modelled from the
spec). -/

/-- The addr_alloc_t structure from memory.h: bitmap, start address,
covered size and page size.  The protecting mutex is not modelled: the
kernel is uniprocessor and every verified caller runs the critical
section atomically. -/
structure addr_alloc_t where
  bitmap : List Bool
  start : Nat
  size : Nat
  page_size : Nat
deriving DecidableEq, Repr

/-- Modelled from the spec: klib bit-run test used by the allocator scan;
true when the next n bits exist and are all clear. -/
def bits_clear_run (bits : List Bool) (n : Nat) : Bool :=
  decide (n ≤ bits.length) && (bits.take n).all (fun b => !b)

/-- Modelled from the spec: bitmap_alloc_nbits of klib returns the lowest
index of a run of n clear bits, or fails. -/
def bitmap_scan : List Bool → Nat → Option Nat
  | [], n => if bits_clear_run [] n then some 0 else none
  | b :: bs, n =>
    if bits_clear_run (b :: bs) n then some 0
    else (bitmap_scan bs n).map (fun i => i + 1)

/-- Modelled from the spec: bitmap_set_bit of klib sets count bits
starting at index i to the given value; indices beyond the bitmap are
ignored. -/
def bitmap_set_range : List Bool → Nat → Nat → Bool → List Bool
  | [], _, _, _ => []
  | b :: bs, i + 1, n, v => b :: bitmap_set_range bs i n v
  | b :: bs, 0, 0, _ => b :: bs
  | _ :: bs, 0, n + 1, v => v :: bitmap_set_range bs 0 n v

/-- Bit lookup with the convention that out-of-range bits read as clear. -/
def bit_get (bits : List Bool) (i : Nat) : Bool := bits.getD i false

/-- Page index a physical address occupies inside an allocator. -/
def page_index_of (alloc : addr_alloc_t) (addr : Nat) : Nat :=
  (addr - alloc.start) / alloc.page_size

/-- addr_alloc_page from memory.c: scan for page_count clear bits, mark
them allocated and return the base address, or return 0. -/
def addr_alloc_page (alloc : addr_alloc_t) (page_count : Nat) : Nat × addr_alloc_t :=
  match bitmap_scan alloc.bitmap page_count with
  | none => (0, alloc)
  | some idx =>
    (alloc.start + idx * alloc.page_size,
     { alloc with bitmap := bitmap_set_range alloc.bitmap idx page_count true })

/-- addr_free_page from memory.c: clear the page_count bits of the pages
based at addr. -/
def addr_free_page (alloc : addr_alloc_t) (addr : Nat) (page_count : Nat) : addr_alloc_t :=
  { alloc with
    bitmap := bitmap_set_range alloc.bitmap (page_index_of alloc addr) page_count false }

/-! ### Page-table construction (memory.c) -/

/-- Combined physical allocator and RAM state threaded through the
memory-manager functions (the C code mutates the paddr_alloc global and
physical memory in place). -/
structure MemSt where
  alloc : addr_alloc_t
  ram : Ram

/-- find_pte from memory.c: locate (and with the alloc flag, create) the
second-level entry for vaddr under page_dir.  Returns the table page
address and entry index standing for the C pte pointer. -/
def find_pte (m : MemSt) (page_dir vaddr : Nat) (alloc_flag : Bool) :
    Option (Nat × Nat) × MemSt :=
  let pde := ram_get m.ram page_dir (pde_index vaddr)
  if entry_present pde then
    (some (entry_paddr pde, pte_index vaddr), m)
  else if ! alloc_flag then
    (none, m)
  else
    match addr_alloc_page m.alloc 1 with
    | (pg, alloc2) =>
      if pg = 0 then
        (none, { m with alloc := alloc2 })
      else
        let ram2 := ram_set_entry m.ram page_dir (pde_index vaddr)
          (pg ||| PTE_P ||| PTE_W ||| PTE_U)
        let ram3 := ram_zero_page ram2 pg
        (some (pg, pte_index vaddr), { alloc := alloc2, ram := ram3 })

/-- memory_create_map from memory.c: map count pages starting at
vaddr to paddr with the given permissions.  The C ASSERT that the target
pte is not already present halts the kernel; it is modelled as the -1
failure return (either way the mapping does not succeed). -/
def memory_create_map (m : MemSt) (page_dir : Nat) :
    Nat → Nat → Nat → Nat → Int × MemSt
  | _, _, 0, _ => (0, m)
  | vaddr, paddr, count + 1, perm =>
    match find_pte m page_dir vaddr true with
    | (none, m2) => (-1, m2)
    | (some (tbl, idx), m2) =>
      let pte := ram_get m2.ram tbl idx
      if entry_present pte then
        (-1, m2)
      else
        let m3 : MemSt := { m2 with ram := ram_set_entry m2.ram tbl idx (paddr ||| perm ||| PTE_P) }
        memory_create_map m3 page_dir (vaddr + MEM_PAGE_SIZE) (paddr + MEM_PAGE_SIZE) count perm

/-- memory_create_uvm from memory.c: allocate and clear one directory
page, then copy the kernel half of the kernel directory into it. -/
def memory_create_uvm (m : MemSt) : Nat × MemSt :=
  match addr_alloc_page m.alloc 1 with
  | (page_dir, alloc2) =>
    if page_dir = 0 then
      (0, { m with alloc := alloc2 })
    else
      let ram2 := ram_zero_page m.ram page_dir
      let ram3 := (List.range user_pde_start).foldl
        (fun r i => ram_set_entry r page_dir i (kernel_page_dir_entry i)) ram2
      (page_dir, { alloc := alloc2, ram := ram3 })

/-- Inner loop of memory_destroy_uvm: free every present leaf page of one
second-level table. -/
def destroy_uvm_ptes (r : Ram) (tbl : Nat) (alloc : addr_alloc_t) : addr_alloc_t :=
  (List.range PTE_CNT).foldl
    (fun al j =>
      let pte := ram_get r tbl j
      if entry_present pte then addr_free_page al (entry_paddr pte) 1 else al)
    alloc

/-- memory_destroy_uvm from memory.c: walk the user half of the
directory, freeing every present leaf page and table page, then free the
directory page itself.  The C ASSERT(page_dir != 0) is modelled as a
no-op on a null directory.  Table contents are not cleared by the C code
and are left untouched here as well. -/
def memory_destroy_uvm (m : MemSt) (page_dir : Nat) : MemSt :=
  if page_dir = 0 then m
  else
    let alloc1 := (List.range (PDE_CNT - user_pde_start)).foldl
      (fun al k =>
        let pde := ram_get m.ram page_dir (user_pde_start + k)
        if entry_present pde then
          addr_free_page (destroy_uvm_ptes m.ram (entry_paddr pde) al) (entry_paddr pde) 1
        else al)
      m.alloc
    { m with alloc := addr_free_page alloc1 page_dir 1 }

/-- One leaf step of memory_copy_uvm: for a present source pte at
directory index i, table index j, allocate a fresh page and map it at the
same virtual address with the same permissions in the destination
directory (the 4 KiB content copy is outside the model).  A failed state
is threaded as the error of an Except, standing for the C goto
copy_uvm_failed. -/
def copy_uvm_pte_step (srcdir to_page_dir i : Nat) (acc : Except MemSt MemSt) (j : Nat) :
    Except MemSt MemSt :=
  match acc with
  | .error e => .error e
  | .ok m =>
    let pde := ram_get m.ram srcdir i
    let pte := ram_get m.ram (entry_paddr pde) j
    if ! entry_present pte then .ok m
    else
      match addr_alloc_page m.alloc 1 with
      | (page, alloc2) =>
        let m2 : MemSt := { m with alloc := alloc2 }
        if page = 0 then .error m2
        else
          let vaddr := (i <<< 22) ||| (j <<< 12)
          match memory_create_map m2 to_page_dir vaddr page 1 (get_pte_perm pte) with
          | (err, m3) => if err < 0 then .error m3 else .ok m3

/-- One directory step of memory_copy_uvm: skip absent source pdes,
otherwise run the pte loop. -/
def copy_uvm_pde_step (srcdir to_page_dir : Nat) (acc : Except MemSt MemSt) (i : Nat) :
    Except MemSt MemSt :=
  match acc with
  | .error e => .error e
  | .ok m =>
    let pde := ram_get m.ram srcdir i
    if ! entry_present pde then .ok m
    else (List.range PTE_CNT).foldl (copy_uvm_pte_step srcdir to_page_dir i) (.ok m)

/-- memory_copy_uvm from memory.c: create a destination address space and
eagerly copy every present user-space mapping.  On any failure the
partially built destination is destroyed and the uint32_t value
(uint32_t)-1 is returned, exactly as the C return -1 does. -/
def memory_copy_uvm (m : MemSt) (page_dir : Nat) : Nat × MemSt :=
  match memory_create_uvm m with
  | (to_page_dir, m1) =>
    if to_page_dir = 0 then (uint32_neg1, m1)
    else
      match (List.range (PDE_CNT - user_pde_start)).foldl
        (fun acc k => copy_uvm_pde_step page_dir to_page_dir acc (user_pde_start + k))
        (.ok m1) with
      | .ok m2 => (to_page_dir, m2)
      | .error m2 => (uint32_neg1, memory_destroy_uvm m2 to_page_dir)

/-- memory_get_paddr from memory.c: translate vaddr through page_dir; 0
when no second-level table exists.  As in the C code the pte itself is
not checked for presence. -/
def memory_get_paddr (m : MemSt) (page_dir vaddr : Nat) : Nat :=
  match find_pte m page_dir vaddr false with
  | (none, _) => 0
  | (some (tbl, idx), m2) =>
    entry_paddr (ram_get m2.ram tbl idx) + vaddr % MEM_PAGE_SIZE

/-- memory_copy_uvm_data from memory.c: page-chunked cross-space copy
into page_dir; fails when a destination page does not translate.  The
byte movement itself is outside the model. -/
def memory_copy_uvm_data (m : MemSt) (page_dir : Nat) : Nat → Nat → Int
  | _, 0 => 0
  | dst, size + 1 =>
    let to_paddr := memory_get_paddr m page_dir dst
    if to_paddr = 0 then -1
    else
      let offset_in_page := to_paddr % MEM_PAGE_SIZE
      let curr_size := min (MEM_PAGE_SIZE - offset_in_page) (size + 1)
      memory_copy_uvm_data m page_dir (dst + curr_size) (size + 1 - curr_size)
termination_by _t sz => sz
decreasing_by
  have hlt : memory_get_paddr m page_dir dst % MEM_PAGE_SIZE < MEM_PAGE_SIZE :=
    Nat.mod_lt _ (by decide)
  omega

/-- Modelled from the spec: up2 of klib rounds up to a multiple. -/
def up2 (v m : Nat) : Nat := (v + m - 1) / m * m

/-- Modelled from the spec: down2 of klib rounds down to a multiple. -/
def down2 (v m : Nat) : Nat := v / m * m

/-- Loop body state of memory_alloc_for_page_dir. -/
def alloc_for_page_dir_loop (m : MemSt) (page_dir perm vaddr_down : Nat) :
    Nat → Nat → Nat × MemSt
  | _, 0 => (0, m)
  | curr_vaddr, count + 1 =>
    match addr_alloc_page m.alloc 1 with
    | (paddr, alloc2) =>
      let m2 : MemSt := { m with alloc := alloc2 }
      if paddr = 0 then
        (0, m2)
      else
        match memory_create_map m2 page_dir curr_vaddr paddr 1 perm with
        | (err, m3) =>
          if err < 0 then
            (uint32_neg1,
             { m3 with alloc := addr_free_page m3.alloc vaddr_down 1 })
          else
            alloc_for_page_dir_loop m3 page_dir perm vaddr_down
              (curr_vaddr + MEM_PAGE_SIZE) count

/-- memory_alloc_for_page_dir from memory.c.  The function is declared
uint32_t: the C return 0 after a failed page allocation and the return 0
on success coincide, and the return -1 after a failed mapping becomes
(uint32_t)-1; callers store the result into an int and test it with
err < 0.  The error-path addr_free_page frees i+1 pages based at the
rounded-down virtual address, exactly as the C code does (the model
mirrors it for the single-page step it can reach). -/
def memory_alloc_for_page_dir (m : MemSt) (page_dir vaddr size perm : Nat) : Nat × MemSt :=
  let page_count := up2 size MEM_PAGE_SIZE / MEM_PAGE_SIZE
  alloc_for_page_dir_loop m page_dir perm (down2 vaddr MEM_PAGE_SIZE) vaddr page_count

/-- memory_alloc_page from memory.c: one page for kernel use. -/
def memory_alloc_page (m : MemSt) : Nat × MemSt :=
  match addr_alloc_page m.alloc 1 with
  | (addr, alloc2) => (addr, { m with alloc := alloc2 })

/-- memory_free_page from memory.c: kernel addresses are freed directly;
process-space addresses are translated through the given current
directory, the leaf page freed and the pte cleared.  The C ASSERT on a
missing mapping halts; it is modelled as a no-op (either way no free
happens). -/
def memory_free_page (m : MemSt) (current_dir addr : Nat) : MemSt :=
  if addr < MEMORY_TASK_BASE then
    { m with alloc := addr_free_page m.alloc addr 1 }
  else
    match find_pte m current_dir addr false with
    | (none, m2) => m2
    | (some (tbl, idx), m2) =>
      let pte := ram_get m2.ram tbl idx
      if entry_present pte then
        { alloc := addr_free_page m2.alloc (entry_paddr pte) 1,
          ram := ram_set_entry m2.ram tbl idx 0 }
      else m2

/-! ## GDT descriptor allocator (cpu.c)

The GDT is modelled as the map from slot index to the descriptor attr
word, the only descriptor field the verified properties observe (a slot
is free iff its attr is zero).  The protecting mutex is not modelled
for the same uniprocessor reason as the allocator mutex. -/

/-- Scan loop of gdt_alloc_desc: first slot with attr zero. -/
def gdt_scan (g : Nat → Nat) : List Nat → Option Nat
  | [] => none
  | i :: rest => if g i = 0 then some i else gdt_scan g rest

/-- gdt_alloc_desc from cpu.c: skip slot 0, find the first free slot,
mark it present and return the 8-byte-scaled selector, or -1. -/
def gdt_alloc_desc (g : Nat → Nat) : Int × (Nat → Nat) :=
  match gdt_scan g (List.range' 1 (GDT_TABLE_SIZE - 1)) with
  | none => (-1, g)
  | some i => ((i * 8 : Nat), fun j => if j = i then SEG_P_PRESENT else g j)

/-- gdt_free_sel from cpu.c: zero the attr of the slot the selector
addresses. -/
def gdt_free_sel (g : Nat → Nat) (sel : Nat) : Nat → Nat :=
  fun j => if j = sel / 8 then 0 else g j

/-- Attr word segment_desc_set of cpu.c stores: granularity flip and
4 KiB limit scaling above 0xFFFFF, plus the high limit nibble. -/
def segment_desc_attr (limit attr : Nat) : Nat :=
  if 0xFFFFF < limit then
    (attr ||| 0x8000) ||| ((((limit / 0x1000) >>> 16) % 16) <<< 8)
  else
    attr ||| (((limit >>> 16) % 16) <<< 8)

/-- segment_desc_set from cpu.c restricted to the attr word (the base and
limit descriptor fields are written by the C code but never read back by
the verified operations). -/
def segment_desc_set (g : Nat → Nat) (selector limit attr : Nat) : Nat → Nat :=
  fun j => if j = selector >>> 3 then segment_desc_attr limit attr else g j

/-! ## Task structures (task.h, cpu.h, syscall.h)

Tasks live at fixed addresses; a task is identified by its address, and
as in task_init the pid is that address.  The task_table array occupies
addresses TASK_TABLE_BASE + i; the statically allocated first and idle
tasks live outside the table. -/

/-- Task states from task.h, in declaration order (so that the memset
zero state is CREATED). -/
inductive TState where
  | CREATED
  | RUNNING
  | SLEEP
  | READY
  | WAITING
  | ZOMBIE
deriving DecidableEq, Repr

/-- Subset of the hardware tss_t from cpu.h that task.c reads or
writes. -/
structure tss_t where
  esp0 : Nat := 0
  ss0 : Nat := 0
  cr3 : Nat := 0
  eip : Nat := 0
  eflags : Nat := 0
  eax : Nat := 0
  ecx : Nat := 0
  edx : Nat := 0
  ebx : Nat := 0
  esp : Nat := 0
  ebp : Nat := 0
  esi : Nat := 0
  edi : Nat := 0
  es : Nat := 0
  cs : Nat := 0
  ss : Nat := 0
  ds : Nat := 0
  fs : Nat := 0
  gs : Nat := 0
  iomap : Nat := 0
deriving DecidableEq, Repr

/-- The syscall_frame_t from syscall.h. -/
structure syscall_frame_t where
  eflags : Nat := 0
  gs : Nat := 0
  fs : Nat := 0
  es : Nat := 0
  ds : Nat := 0
  edi : Nat := 0
  esi : Nat := 0
  ebp : Nat := 0
  dummy : Nat := 0
  ebx : Nat := 0
  edx : Nat := 0
  ecx : Nat := 0
  eax : Nat := 0
  eip : Nat := 0
  cs : Nat := 0
  func_id : Nat := 0
  arg0 : Nat := 0
  arg1 : Nat := 0
  arg2 : Nat := 0
  arg3 : Nat := 0
  esp : Nat := 0
  ss : Nat := 0
deriving DecidableEq, Repr

/-- Byte size of syscall_frame_t: 22 32-bit words. -/
def SYSCALL_FRAME_SIZE : Nat := 88

/-- The task_t of task.h.  A memset-to-zero slot is the default value:
state CREATED (enum zero), empty name (name[0] == 0 marks a free task
slot), all numbers zero.  The file_table holds opaque open-file ids
(zero meaning NULL); the global open-file table belongs to the external
filesystem and is not modelled. -/
structure task_t where
  state : TState := .CREATED
  name : String := ""
  pid : Nat := 0
  parent : Nat := 0
  heap_start : Nat := 0
  heap_end : Nat := 0
  status : Int := 0
  sleep_ticks : Int := 0
  time_slice : Int := 0
  slice_ticks : Int := 0
  file_table : Nat → Nat := fun _ => 0
  tss : tss_t := {}
  tss_sel : Nat := 0

/-- Address of the first entry of the static task_table array. -/
def TASK_TABLE_BASE : Nat := 0x40000

/-- Address of the static task_manager.idle_task. -/
def idle_task_addr : Nat := 8

/-- Address of the static task_manager.first_task. -/
def first_task_addr : Nat := 4

/-- App code segment selector allocated by task_manager_init, with CPL3
added as task.c does. -/
def app_code_sel_cpl3 : Nat := 32 + 3

/-- App data segment selector allocated by task_manager_init, with CPL3
added. -/
def app_data_sel_cpl3 : Nat := 24 + 3

/-- Whole-kernel state: the task arena, memory manager, GDT, the syscall
frames living on kernel stacks (keyed by their base address
esp0 - sizeof(syscall_frame_t)), the scheduler queues of task_manager_t,
the MMU page-directory register, and the single named file the
spec-modelled external filesystem serves. -/
structure OS where
  tasks : Nat → task_t
  mem : MemSt
  gdt : Nat → Nat
  frames : Nat → syscall_frame_t
  ready_list : List Nat
  sleep_list : List Nat
  task_list : List Nat
  curr_task : Nat
  mmu_page_dir : Nat
  fs_file : Option (List Nat)

/-- Point update of one task. -/
def upd_task (s : OS) (t : Nat) (f : task_t → task_t) : OS :=
  { s with tasks := fun a => if a = t then f (s.tasks a) else s.tasks a }

/-! ## Scheduler (task.c) -/

/-- task_set_ready from task.c: any task except the idle task is appended
to the ready queue and marked READY. -/
def task_set_ready (s : OS) (t : Nat) : OS :=
  if t = idle_task_addr then s
  else
    let s2 := { s with ready_list := s.ready_list ++ [t] }
    upd_task s2 t (fun tk => { tk with state := .READY })

/-- task_set_block from task.c: remove the task from the ready queue;
the state is deliberately left for the caller to set. -/
def task_set_block (s : OS) (t : Nat) : OS :=
  if t = idle_task_addr then s
  else { s with ready_list := s.ready_list.erase t }

/-- task_next_run from task.c: the ready-queue head, or the idle task
when the queue is empty. -/
def task_next_run (s : OS) : Nat :=
  match s.ready_list with
  | [] => idle_task_addr
  | t :: _ => t

/-- task_dispatch from task.c: pick the next task; if it differs from the
current one, make it current, mark it RUNNING and switch to its TSS.
The picked task is not removed from the ready queue. -/
def task_dispatch (s : OS) : OS :=
  let to_task := task_next_run s
  if to_task ≠ s.curr_task then
    let s2 := { s with curr_task := to_task }
    upd_task s2 to_task (fun tk => { tk with state := .RUNNING })
  else s

/-- sys_yield from task.c: with more than one task queued, move the
current task to the tail of the ready queue and dispatch. -/
def sys_yield (s : OS) : Int × OS :=
  if 1 < s.ready_list.length then
    let c := s.curr_task
    (0, task_dispatch (task_set_ready (task_set_block s c) c))
  else (0, s)

/-- task_set_sleep from task.c: a zero tick count is ignored; otherwise
record the ticks, set state SLEEP and append to the sleep queue (the
ticks argument is uint32_t, so the C ticks <= 0 test means ticks == 0). -/
def task_set_sleep (s : OS) (t : Nat) (ticks : Nat) : OS :=
  if ticks = 0 then s
  else
    let s2 := upd_task s t (fun tk => { tk with sleep_ticks := (ticks : Int), state := .SLEEP })
    { s2 with sleep_list := s2.sleep_list ++ [t] }

/-- task_set_wakeup from task.c. -/
def task_set_wakeup (s : OS) (t : Nat) : OS :=
  { s with sleep_list := s.sleep_list.erase t }

/-- sys_msleep from task.c: clamp the delay to at least one tick period,
move the current task from the ready queue to the sleep queue with the
rounded-up tick count, and dispatch. -/
def sys_msleep (s : OS) (ms0 : Nat) : OS :=
  let ms := if ms0 < OS_TICK_MS then OS_TICK_MS else ms0
  let c := s.curr_task
  task_dispatch (task_set_sleep (task_set_block s c) c ((ms + (OS_TICK_MS - 1)) / OS_TICK_MS))

/-- Sleep-queue step of task_time_tick: decrement the task's remaining
ticks; on reaching zero, move it from the sleep queue to the ready
queue. -/
def tick_sleep_step (st : OS) (t : Nat) : OS :=
  let remaining := (st.tasks t).sleep_ticks - 1
  let st1 := upd_task st t (fun tk => { tk with sleep_ticks := tk.sleep_ticks - 1 })
  if remaining = 0 then task_set_ready (task_set_wakeup st1 t) t else st1

/-- task_time_tick from task.c: account the current slice (recycling the
task to the ready-queue tail when it expires), age every sleeping task,
and dispatch.  The C loop walks the sleep list with a saved next
pointer, which the fold over the entry snapshot reproduces. -/
def task_time_tick (s : OS) : OS :=
  let c := s.curr_task
  let new_slice := (s.tasks c).slice_ticks - 1
  let s1 := upd_task s c (fun tk => { tk with slice_ticks := new_slice })
  let s2 :=
    if new_slice = 0 then
      task_set_ready
        (task_set_block (upd_task s1 c (fun tk => { tk with slice_ticks := tk.time_slice })) c) c
    else s1
  task_dispatch (s2.sleep_list.foldl tick_sleep_step s2)

/-- Tick count sys_msleep computes for a delay of ms milliseconds. -/
def msleep_ticks (ms : Nat) : Nat :=
  ((if ms < OS_TICK_MS then OS_TICK_MS else ms) + (OS_TICK_MS - 1)) / OS_TICK_MS

/-! ## Task creation and teardown (task.c) -/

/-- task_start from task.c. -/
def task_start (s : OS) (t : Nat) : OS := task_set_ready s t

/-- Modelled from the spec: kernel_strncpy of klib copies the source name
into the fixed TASK_NAME_SIZE buffer; names are null-terminated and hold
at most TASK_NAME_SIZE bytes. -/
def kernel_strncpy (src : String) (n : Nat) : String :=
  (src.toList.take (n - 1)).asString

/-- SEG attribute tss_init passes to segment_desc_set:
SEG_P_PRESENT with SEG_DPL0 and SEG_TYPE_TSS. -/
def TSS_SEG_ATTR : Nat := SEG_P_PRESENT + 9

/-- Byte size of the full hardware tss_t (26 32-bit words). -/
def TSS_SIZE : Nat := 104

/-- tss_init from task.c: allocate a GDT slot for the TSS, point it at
the task, clear the TSS, allocate the kernel stack page, fill the
register image, create the process page directory.  On a failed stack or
directory allocation the slot (and the stack, when present) is released
and -1 returned. -/
def tss_init (s : OS) (t : Nat) (flag : Nat) (entry esp : Nat) : Int × OS :=
  match gdt_alloc_desc s.gdt with
  | (tss_sel, g1) =>
    if tss_sel < 0 then (-1, { s with gdt := g1 })
    else
      let sel := tss_sel.toNat
      let g2 := segment_desc_set g1 sel TSS_SIZE TSS_SEG_ATTR
      let s1 := upd_task { s with gdt := g2 } t (fun tk => { tk with tss := {} })
      match memory_alloc_page s1.mem with
      | (kernel_stack, m1) =>
        let s2 := { s1 with mem := m1 }
        if kernel_stack = 0 then
          (-1, { s2 with gdt := gdt_free_sel s2.gdt sel })
        else
          let code_sel := if flag % 2 = 1 then 8 else app_code_sel_cpl3
          let data_sel := if flag % 2 = 1 then KERNEL_SELECTOR_DS else app_data_sel_cpl3
          let s3 := upd_task s2 t (fun tk =>
            { tk with tss :=
              { tk.tss with
                eip := entry,
                esp := if esp ≠ 0 then esp else kernel_stack + MEM_PAGE_SIZE,
                esp0 := kernel_stack + MEM_PAGE_SIZE,
                ss0 := KERNEL_SELECTOR_DS,
                eflags := EFLAGS_DEFAULT_IF,
                cs := code_sel,
                es := data_sel, ss := data_sel, ds := data_sel,
                fs := data_sel, gs := data_sel,
                iomap := 0 } })
          match memory_create_uvm s3.mem with
          | (page_dir, m2) =>
            let s4 := { s3 with mem := m2 }
            if page_dir = 0 then
              let s5 := { s4 with gdt := gdt_free_sel s4.gdt sel }
              (-1, { s5 with mem :=
                memory_free_page s5.mem (s5.tasks s5.curr_task).tss.cr3 kernel_stack })
            else
              (0, upd_task s4 t (fun tk =>
                { tk with tss := { tk.tss with cr3 := page_dir }, tss_sel := sel }))

/-- task_init from task.c: tss_init, then the bookkeeping fields; the
pid is the task address, and the task joins the all-tasks list. -/
def task_init (s : OS) (t : Nat) (nm : String) (flag : Nat) (entry esp : Nat) : Int × OS :=
  match tss_init s t flag entry esp with
  | (err, s1) =>
    if err < 0 then (err, s1)
    else
      let s2 := upd_task s1 t (fun tk =>
        { tk with
          name := kernel_strncpy nm TASK_NAME_SIZE,
          state := .CREATED,
          sleep_ticks := 0,
          time_slice := TASK_TIME_SLICE_DEFAULT,
          slice_ticks := TASK_TIME_SLICE_DEFAULT,
          parent := 0,
          heap_start := 0,
          heap_end := 0,
          file_table := fun _ => 0,
          pid := t })
      (0, { s2 with task_list := s2.task_list ++ [t] })

/-- task_uninit from task.c: free the TSS selector when set, the kernel
stack page when set, the page directory when set, then clear the
structure. -/
def task_uninit (s : OS) (t : Nat) : OS :=
  let tk := s.tasks t
  let s1 := if tk.tss_sel ≠ 0 then { s with gdt := gdt_free_sel s.gdt tk.tss_sel } else s
  let s2 := if tk.tss.esp0 ≠ 0 then
      { s1 with mem := memory_free_page s1.mem (s1.tasks s1.curr_task).tss.cr3 (tk.tss.esp0 - MEM_PAGE_SIZE) }
    else s1
  let s3 := if tk.tss.cr3 ≠ 0 then { s2 with mem := memory_destroy_uvm s2.mem tk.tss.cr3 } else s2
  upd_task s3 t (fun _ => {})

/-- Scan loop of alloc_task: first table slot whose name is empty. -/
def alloc_task_scan (s : OS) : List Nat → Option Nat
  | [] => none
  | i :: rest =>
    if (s.tasks (TASK_TABLE_BASE + i)).name = "" then some (TASK_TABLE_BASE + i)
    else alloc_task_scan s rest

/-- alloc_task from task.c: find a free slot in the task table. -/
def alloc_task (s : OS) : Option Nat := alloc_task_scan s (List.range TASK_NR)

/-- free_task from task.c: clearing the first name byte frees the slot. -/
def free_task (s : OS) (t : Nat) : OS :=
  upd_task s t (fun tk => { tk with name := "" })

/-- copy_opened_files from task.c: duplicate the parent's open-file
references into the child (file_inc_ref raises reference counts in the
external open-file table, which is not part of the model). -/
def copy_opened_files (s : OS) (child : Nat) : OS :=
  let parent := s.curr_task
  (List.range TASK_OFILE_NR).foldl
    (fun st i =>
      if (st.tasks parent).file_table i ≠ 0 then
        upd_task st child (fun tk =>
          { tk with file_table := fun j =>
              if j = i then (st.tasks parent).file_table i else tk.file_table j })
      else st)
    s

/-- Cleanup label fork_failed of sys_fork. -/
def fork_failed (s : OS) (child : Nat) : Int × OS :=
  (-1, free_task (task_uninit s child) child)

/-- sys_fork from task.c.  The child is initialised from the parent's
saved syscall frame; its eax is zeroed so it observes a 0 return; the
parent's address space is eagerly copied.  The C test of the copy result,
(child_task->tss.cr3 = memory_copy_uvm(...)) < 0, compares the uint32_t
cr3 field against zero and is therefore never true; the model embeds the
comparison exactly as the C semantics evaluate it. -/
def sys_fork (s : OS) : Int × OS :=
  let parent_task := s.curr_task
  match alloc_task s with
  | none => (-1, s)
  | some child =>
    let frame := s.frames ((s.tasks parent_task).tss.esp0 - SYSCALL_FRAME_SIZE)
    match task_init s child (s.tasks parent_task).name 0 frame.eip
        (frame.esp + 4 * SYSCALL_PARAM_COUNT) with
    | (err, s1) =>
      if err < 0 then fork_failed s1 child
      else
        let s2 := copy_opened_files s1 child
        let s3 := upd_task s2 child (fun tk =>
          { tk with
            tss := { tk.tss with
              eax := 0, ebx := frame.ebx, ecx := frame.ecx, edx := frame.edx,
              esi := frame.esi, edi := frame.edi, ebp := frame.ebp,
              cs := frame.cs, ds := frame.ds, es := frame.es,
              fs := frame.fs, gs := frame.gs, eflags := frame.eflags },
            parent := parent_task })
        match memory_copy_uvm s3.mem (s3.tasks parent_task).tss.cr3 with
        | (cr3v, m2) =>
          let s4 := upd_task { s3 with mem := m2 } child (fun tk =>
            { tk with tss := { tk.tss with cr3 := cr3v } })
          if cr3v < 0 then fork_failed s4 child
          else
            let s5 := task_start s4 child
            (((s5.tasks child).pid : Int), s5)

/-! ## wait and sbrk (task.c, memory.c) -/

/-- Scan loop of sys_wait over the task table: the first slot whose
parent is the current task and whose state is Zombie. -/
def wait_scan (s : OS) (curr : Nat) : List Nat → Option Nat
  | [] => none
  | i :: rest =>
    if (s.tasks (TASK_TABLE_BASE + i)).parent ≠ curr then wait_scan s curr rest
    else if (s.tasks (TASK_TABLE_BASE + i)).state = .ZOMBIE then some (TASK_TABLE_BASE + i)
    else wait_scan s curr rest

/-- Reap step of sys_wait: destroy the zombie's address space, free its
kernel stack page and clear the task structure.  sys_wait performs these
three releases and nothing else — in particular it never calls
gdt_free_sel. -/
def wait_reap (s : OS) (t : Nat) : OS :=
  let tk := s.tasks t
  let m1 := memory_destroy_uvm s.mem tk.tss.cr3
  let m2 := memory_free_page m1 (s.tasks s.curr_task).tss.cr3 (tk.tss.esp0 - MEM_PAGE_SIZE)
  upd_task { s with mem := m2 } t (fun _ => {})

/-- sys_wait from task.c, modelled at its first table scan: when a zombie
child exists, return its pid, the captured exit status and the reaped
state.  The none result stands for the blocking branch (current task
enters Waiting and re-dispatches), which the verified claim does not
concern. -/
def sys_wait (s : OS) : Option (Int × Int × OS) :=
  match wait_scan s s.curr_task (List.range TASK_NR) with
  | none => none
  | some t => some (((s.tasks t).pid : Int), (s.tasks t).status, wait_reap s t)

/-- memory_alloc_page_for from memory.c: allocate under the current
process directory. -/
def memory_alloc_page_for (s : OS) (addr size perm : Nat) : Nat × MemSt :=
  memory_alloc_for_page_dir s.mem (s.tasks s.curr_task).tss.cr3 addr size perm

/-- sys_sbrk from memory.c.  The incr argument is non-negative (the C
code ASSERTs incr >= 0; the spec calls negative increments a non-goal).
The result is the C char pointer: the previous heap_end on success, the
sentinel (char *)-1 on a detected allocation failure. -/
def sys_sbrk (s : OS) (incr : Nat) : Int × OS :=
  let t := s.curr_task
  let pre_heap_end := (s.tasks t).heap_end
  if incr = 0 then ((pre_heap_end : Int), s)
  else
    let start := (s.tasks t).heap_end
    let heap_new := start + incr
    let start_offset := start % MEM_PAGE_SIZE
    if start_offset ≠ 0 ∧ start_offset + incr ≤ MEM_PAGE_SIZE then
      ((pre_heap_end : Int), upd_task s t (fun tk => { tk with heap_end := heap_new }))
    else
      let start2 := if start_offset ≠ 0 then start + (MEM_PAGE_SIZE - start_offset) else start
      let incr2 := if start_offset ≠ 0 then incr - (MEM_PAGE_SIZE - start_offset) else incr
      if incr2 ≠ 0 then
        match memory_alloc_page_for s start2 (heap_new - start2) (PTE_P ||| PTE_U ||| PTE_W) with
        | (rv, m2) =>
          if int_of_uint32 rv < 0 then (-1, { s with mem := m2 })
          else
            ((pre_heap_end : Int),
             upd_task { s with mem := m2 } t (fun tk => { tk with heap_end := heap_new }))
      else ((pre_heap_end : Int), upd_task s t (fun tk => { tk with heap_end := heap_new }))

/-! ## ELF32 image loader and execve (task.c, elf.h)

The filesystem is an external collaborator; it is modelled from the
spec as a single named file served as its byte list, with the
read/lseek contract the loader requires: every read is preceded by a
seek, and a read at position pos for len bytes delivers
min(len, size - pos) bytes. -/

/-- Modelled from the spec: byte count a read of len bytes at position
pos returns. -/
def file_read_cnt (bytes : List Nat) (pos len : Nat) : Nat :=
  min len (bytes.length - pos)

/-- Little-endian 16-bit field of a byte list. -/
def bytes_u16 (l : List Nat) (off : Nat) : Nat :=
  l.getD off 0 + 256 * l.getD (off + 1) 0

/-- Little-endian 32-bit field of a byte list. -/
def bytes_u32 (l : List Nat) (off : Nat) : Nat :=
  l.getD off 0 + 256 * (l.getD (off + 1) 0 + 256 * (l.getD (off + 2) 0 + 256 * l.getD (off + 3) 0))

/-- ELF_MAGIC and the three letter bytes from elf.h. -/
def ELF_MAGIC : Nat := 0x7F

/-- ET_EXEC from elf.h. -/
def ET_EXEC : Nat := 2

/-- ET_386 from elf.h. -/
def ET_386 : Nat := 3

/-- PT_LOAD from elf.h. -/
def PT_LOAD : Nat := 1

/-- Byte size of Elf32_Ehdr. -/
def ELF_EHDR_SIZE : Nat := 52

/-- Byte size of Elf32_Phdr. -/
def ELF_PHDR_SIZE : Nat := 32

/-- The Elf32_Ehdr from elf.h. -/
structure Elf32_Ehdr where
  e_ident : List Nat
  e_type : Nat
  e_machine : Nat
  e_version : Nat
  e_entry : Nat
  e_phoff : Nat
  e_shoff : Nat
  e_flags : Nat
  e_ehsize : Nat
  e_phentsize : Nat
  e_phnum : Nat
  e_shentsize : Nat
  e_shnum : Nat
  e_shstrndx : Nat
deriving DecidableEq, Repr

/-- The Elf32_Phdr from elf.h. -/
structure Elf32_Phdr where
  p_type : Nat
  p_offset : Nat
  p_vaddr : Nat
  p_paddr : Nat
  p_filesz : Nat
  p_memsz : Nat
  p_flags : Nat
  p_align : Nat
deriving DecidableEq, Repr

/-- Reading the packed Elf32_Ehdr from the start of the file, as the
sys_read into the elf_hdr structure does. -/
def parse_ehdr (l : List Nat) : Elf32_Ehdr :=
  { e_ident := l.take 16,
    e_type := bytes_u16 l 16,
    e_machine := bytes_u16 l 18,
    e_version := bytes_u32 l 20,
    e_entry := bytes_u32 l 24,
    e_phoff := bytes_u32 l 28,
    e_shoff := bytes_u32 l 32,
    e_flags := bytes_u32 l 36,
    e_ehsize := bytes_u16 l 40,
    e_phentsize := bytes_u16 l 42,
    e_phnum := bytes_u16 l 44,
    e_shentsize := bytes_u16 l 46,
    e_shnum := bytes_u16 l 48,
    e_shstrndx := bytes_u16 l 50 }

/-- Reading a packed Elf32_Phdr at a file offset. -/
def parse_phdr (l : List Nat) (off : Nat) : Elf32_Phdr :=
  { p_type := bytes_u32 l off,
    p_offset := bytes_u32 l (off + 4),
    p_vaddr := bytes_u32 l (off + 8),
    p_paddr := bytes_u32 l (off + 12),
    p_filesz := bytes_u32 l (off + 16),
    p_memsz := bytes_u32 l (off + 20),
    p_flags := bytes_u32 l (off + 24),
    p_align := bytes_u32 l (off + 28) }

/-- Page-chunked read loop of load_phdr: each chunk translates the
destination page (the C reads into that physical address; the byte
contents are outside the model) and fails when the file delivers fewer
bytes than requested. -/
def load_phdr_read_loop (bytes : List Nat) (m : MemSt) (page_dir : Nat) :
    Nat → Nat → Nat → Int
  | _, _, 0 => 0
  | vaddr, pos, size + 1 =>
    let curr_size := if MEM_PAGE_SIZE < size + 1 then MEM_PAGE_SIZE else size + 1
    let _paddr := memory_get_paddr m page_dir vaddr
    if file_read_cnt bytes pos curr_size < curr_size then -1
    else load_phdr_read_loop bytes m page_dir (vaddr + curr_size) (pos + curr_size)
      (size + 1 - curr_size)
termination_by _v _p sz => sz
decreasing_by
  have hp : 0 < MEM_PAGE_SIZE := by decide
  split <;> omega

/-- load_phdr from task.c: the p_vaddr page-alignment ASSERT (which halts
the kernel) is modelled as the failure return; then the segment pages are
allocated under the new directory (through the same uint32-to-int result
plumbing the C uses), the file position is moved to p_offset and
p_filesz bytes are read page by page. -/
def load_phdr (bytes : List Nat) (m : MemSt) (phdr : Elf32_Phdr) (page_dir : Nat) :
    Int × MemSt :=
  if phdr.p_vaddr % MEM_PAGE_SIZE ≠ 0 then (-1, m)
  else
    match memory_alloc_for_page_dir m page_dir phdr.p_vaddr phdr.p_memsz
        (PTE_P ||| PTE_U ||| PTE_W) with
    | (rv, m2) =>
      if int_of_uint32 rv < 0 then (-1, m2)
      else (load_phdr_read_loop bytes m2 page_dir phdr.p_vaddr phdr.p_offset phdr.p_filesz, m2)

/-- Accumulator of the program-header loop of load_elf_file: the heap
bounds the loop assigns into the task and the evolving memory state. -/
structure LoadAcc where
  heap_start : Nat
  heap_end : Nat
  mem : MemSt

/-- One iteration of the program-header loop of load_elf_file: seek to
the i-th header, read and parse it, skip non-PT_LOAD or non-user
segments, load the rest.  A failure is threaded as the Except error,
standing for the C goto load_failed. -/
def load_phdr_iter (bytes : List Nat) (page_dir : Nat) (hdr : Elf32_Ehdr)
    (acc : Except LoadAcc LoadAcc) (i : Nat) : Except LoadAcc LoadAcc :=
  match acc with
  | .error e => .error e
  | .ok a =>
    let e_phoff_i := hdr.e_phoff + i * hdr.e_phentsize
    if file_read_cnt bytes e_phoff_i ELF_PHDR_SIZE < ELF_PHDR_SIZE then .error a
    else
      let phdr := parse_phdr bytes e_phoff_i
      if phdr.p_type ≠ PT_LOAD ∨ phdr.p_vaddr < MEMORY_TASK_BASE then .ok a
      else
        match load_phdr bytes a.mem phdr page_dir with
        | (err, m2) =>
          if err < 0 then .error { a with mem := m2 }
          else .ok { heap_start := phdr.p_vaddr + phdr.p_memsz,
                     heap_end := phdr.p_vaddr + phdr.p_memsz,
                     mem := m2 }

/-- Write the loop accumulator back into the OS state: the task heap
bounds the loop assigned (also on the failure path, as in the C code,
where task->heap_start and task->heap_end were updated in place) and the
memory state. -/
def apply_load_acc (s : OS) (t : Nat) (a : LoadAcc) : OS :=
  upd_task { s with mem := a.mem } t
    (fun tk => { tk with heap_start := a.heap_start, heap_end := a.heap_end })

/-- load_elf_file from task.c: open the file, read and validate the ELF
header (magic bytes, executable type, 386 machine, non-zero entry,
non-zero e_phentsize and e_phoff), then run the program-header loop.
0 is the failure return; a successful load returns the (non-zero)
e_entry.  Note that a file whose header passes the checks but contains
no PT_LOAD header at all loads successfully without mapping anything. -/
def load_elf_file (s : OS) (t : Nat) (_name : String) (page_dir : Nat) : Nat × OS :=
  match s.fs_file with
  | none => (0, s)
  | some bytes =>
    if file_read_cnt bytes 0 ELF_EHDR_SIZE < ELF_EHDR_SIZE then (0, s)
    else
      let hdr := parse_ehdr bytes
      if hdr.e_ident.getD 0 0 ≠ ELF_MAGIC ∨ hdr.e_ident.getD 1 0 ≠ 69
          ∨ hdr.e_ident.getD 2 0 ≠ 76 ∨ hdr.e_ident.getD 3 0 ≠ 70 then (0, s)
      else if hdr.e_type ≠ ET_EXEC ∨ hdr.e_machine ≠ ET_386 ∨ hdr.e_entry = 0 then (0, s)
      else if hdr.e_phentsize = 0 ∨ hdr.e_phoff = 0 then (0, s)
      else
        let acc0 : LoadAcc :=
          { heap_start := (s.tasks t).heap_start,
            heap_end := (s.tasks t).heap_end,
            mem := s.mem }
        match (List.range hdr.e_phnum).foldl (load_phdr_iter bytes page_dir hdr) (.ok acc0) with
        | .ok a => (hdr.e_entry, apply_load_acc s t a)
        | .error a => (0, apply_load_acc s t a)

/-- Modelled from the spec: get_file_name of klib yields the final path
component of the program name (the characters after the last slash). -/
def get_file_name (name : String) : String :=
  ((name.toList.reverse.takeWhile (fun c => c ≠ '/')).reverse).asString

/-- Per-argument loop of copy_args: each argument string (including its
terminator) is copied into the new space at the running destination; the
C ASSERT on the copy result (which halts) is modelled as failure. -/
def copy_args_arg_loop (m : MemSt) (page_dir : Nat) : Nat → List String → Int
  | _, [] => 0
  | dest_arg, a :: rest =>
    let len := a.length + 1
    if memory_copy_uvm_data m page_dir dest_arg len < 0 then -1
    else copy_args_arg_loop m page_dir (dest_arg + len) rest

/-- copy_args from task.c: lay out the task_args_t record, the argv
table and the argument strings in the reserved area below the stack top
of the new address space.  The table and string stores go to physical
pages (contents outside the model); the translation failures the C code
checks (one by ASSERT, one by the returned int) are the failure
conditions. -/
def copy_args (m : MemSt) (dst page_dir : Nat) (argv : List String) : Int :=
  let argc := argv.length
  if memory_get_paddr m page_dir (dst + 12) = 0 then -1
  else
    if copy_args_arg_loop m page_dir (dst + 12 + 4 * (argc + 1)) argv < 0 then -1
    else memory_copy_uvm_data m page_dir dst 12

/-- Cleanup label exec_failed of sys_execve: with a created new
directory, reinstall the old one (task cr3 and MMU), destroy the new
one, and return -1. -/
def exec_failed (s : OS) (t old_page_dir new_page_dir : Nat) : Int × OS :=
  if new_page_dir ≠ 0 then
    let s1 := upd_task s t (fun tk => { tk with tss := { tk.tss with cr3 := old_page_dir } })
    (-1, { s1 with mmu_page_dir := old_page_dir,
                   mem := memory_destroy_uvm s1.mem new_page_dir })
  else (-1, s)

/-- sys_execve from task.c: record the new program name into the task
(before anything can fail), create the fresh address space, load the
image, build the user stack and argument area, rewrite the saved syscall
frame, commit the new directory and destroy the old one.  Any failure
after the new directory exists funnels through exec_failed. -/
def sys_execve (s : OS) (name : String) (argv : List String) : Int × OS :=
  let t := s.curr_task
  let s0 := upd_task s t (fun tk =>
    { tk with name := kernel_strncpy (get_file_name name) TASK_NAME_SIZE })
  let old_page_dir := (s0.tasks t).tss.cr3
  let cr := memory_create_uvm s0.mem
  let new_page_dir := cr.1
  let s1 := { s0 with mem := cr.2 }
  if new_page_dir = 0 then exec_failed s1 t old_page_dir new_page_dir
  else
    let lr := load_elf_file s1 t name new_page_dir
    let entry := lr.1
    let s2 := lr.2
    if entry = 0 then exec_failed s2 t old_page_dir new_page_dir
    else
      let ar := memory_alloc_for_page_dir s2.mem new_page_dir
        (MEM_TASK_STACK_TOP - MEM_TASK_STACK_SIZE) MEM_TASK_STACK_SIZE
        (PTE_P ||| PTE_U ||| PTE_W)
      let s3 := { s2 with mem := ar.2 }
      if int_of_uint32 ar.1 < 0 then exec_failed s3 t old_page_dir new_page_dir
      else
        let stack_top := MEM_TASK_STACK_TOP - MEM_TASK_ARG_SIZE
        if copy_args s3.mem stack_top new_page_dir argv < 0 then
          exec_failed s3 t old_page_dir new_page_dir
        else
          let fkey := (s3.tasks t).tss.esp0 - SYSCALL_FRAME_SIZE
          let newframes := fun k =>
            if k = fkey then
              { s3.frames fkey with
                eip := entry, eax := 0, ebx := 0, ecx := 0, edx := 0,
                esi := 0, edi := 0, ebp := 0,
                eflags := EFLAGS_DEFAULT_IF,
                esp := stack_top - 4 * SYSCALL_PARAM_COUNT }
            else s3.frames k
          let s4 := { s3 with frames := newframes }
          let s5 := upd_task s4 t (fun tk =>
            { tk with tss := { tk.tss with cr3 := new_page_dir } })
          (0, { s5 with mmu_page_dir := new_page_dir,
                        mem := memory_destroy_uvm s5.mem old_page_dir })

/-- Empty memory-manager state used by the scheduler-only scenarios. -/
def mem_empty : MemSt :=
  { alloc := { bitmap := [], start := MEM_EXT_START, size := 0, page_size := MEM_PAGE_SIZE },
    ram := fun _ _ => 0 }

/-- Concrete scheduler state: the idle task is current and running, one
user task (address 10) is READY and queued.  This is the ordinary state
right after that task was woken while the system was idle. -/
def sched_base : OS :=
  { tasks := fun a =>
      if a = 10 then { state := .READY, name := "t1", pid := 10 }
      else if a = idle_task_addr then { state := .RUNNING, name := "idle task" }
      else {},
    mem := mem_empty,
    gdt := fun _ => 0,
    frames := fun _ => {},
    ready_list := [10],
    sleep_list := [],
    task_list := [idle_task_addr, 10],
    curr_task := idle_task_addr,
    mmu_page_dir := 0,
    fs_file := none }

/-! ## Concrete scenario states for the process-lifecycle claims -/

/-- Address used for the concrete running parent task in the scenarios
(a task outside the table, like the static first task). -/
def parent_addr : Nat := 0x30000

/-- Fork scenario: a running parent whose syscall frame is saved, a GDT
with six used slots, and a physical allocator with exactly two free
pages — enough for the child's kernel stack and page directory, so that
everything up to the eager address-space copy succeeds and the copy
itself fails on the exhausted allocator. -/
def fork_s0 : OS :=
  { tasks := fun a =>
      if a = parent_addr then
        { state := .RUNNING, name := "shell", pid := parent_addr,
          tss := { cr3 := 0x200000, esp0 := 0x7000 } }
      else {},
    mem := { alloc := { bitmap := [false, false], start := MEM_EXT_START,
                        size := 2 * MEM_PAGE_SIZE, page_size := MEM_PAGE_SIZE },
             ram := fun _ _ => 0 },
    gdt := fun i => if i < 6 then SEG_P_PRESENT else 0,
    frames := fun _ => { eip := 0x80000100, esp := 0x9FFFEF00 },
    ready_list := [], sleep_list := [], task_list := [parent_addr],
    curr_task := parent_addr, mmu_page_dir := 0x200000, fs_file := none }

/-- Wait scenario: the running parent and one zombie child occupying the
first task-table slot, holding page directory 0x100000 (allocator bit 0),
kernel stack page 0x101000 (bit 1) and GDT slot 6 (selector 48) with a
present TSS descriptor attr 137. -/
def wait_s0 : OS :=
  { tasks := fun a =>
      if a = parent_addr then
        { state := .RUNNING, name := "shell", pid := parent_addr,
          tss := { cr3 := 0x300000, esp0 := 0x7000 } }
      else if a = TASK_TABLE_BASE then
        { state := .ZOMBIE, name := "child", pid := TASK_TABLE_BASE,
          parent := parent_addr, status := 7,
          tss := { cr3 := 0x100000, esp0 := 0x102000 }, tss_sel := 48 }
      else {},
    mem := { alloc := { bitmap := [true, true], start := MEM_EXT_START,
                        size := 2 * MEM_PAGE_SIZE, page_size := MEM_PAGE_SIZE },
             ram := fun _ _ => 0 },
    gdt := fun i => if i = 6 then 137 else if i < 6 then SEG_P_PRESENT else 0,
    frames := fun _ => {},
    ready_list := [], sleep_list := [], task_list := [parent_addr, TASK_TABLE_BASE],
    curr_task := parent_addr, mmu_page_dir := 0x300000, fs_file := none }

/-- Sbrk scenario: the running task has a page-aligned heap_end
0x80001000 and the physical bitmap is full, so the next page allocation
fails. -/
def sbrk_s0 : OS :=
  { tasks := fun a =>
      if a = parent_addr then
        { state := .RUNNING, name := "shell", pid := parent_addr,
          heap_start := 0x80000000, heap_end := 0x80001000,
          tss := { cr3 := 0x200000, esp0 := 0x7000 } }
      else {},
    mem := { alloc := { bitmap := [true], start := MEM_EXT_START,
                        size := MEM_PAGE_SIZE, page_size := MEM_PAGE_SIZE },
             ram := fun _ _ => 0 },
    gdt := fun _ => 0, frames := fun _ => {},
    ready_list := [], sleep_list := [], task_list := [parent_addr],
    curr_task := parent_addr, mmu_page_dir := 0x200000, fs_file := none }

/-- Execve scenario: the running task is named a, one free physical page
lets the fresh page directory be created, and the named file does not
exist, so the load fails right after the new directory exists. -/
def exec_s0 : OS :=
  { tasks := fun a =>
      if a = parent_addr then
        { state := .RUNNING, name := "a", pid := parent_addr,
          heap_start := 0x80000000, heap_end := 0x80000000,
          tss := { cr3 := 0x200000, esp0 := 0x7000 } }
      else {},
    mem := { alloc := { bitmap := [false], start := MEM_EXT_START,
                        size := MEM_PAGE_SIZE, page_size := MEM_PAGE_SIZE },
             ram := fun _ _ => 0 },
    gdt := fun _ => 0, frames := fun _ => {},
    ready_list := [], sleep_list := [], task_list := [parent_addr],
    curr_task := parent_addr, mmu_page_dir := 0x200000, fs_file := none }

/-- A well-formed 52-byte ELF header with valid magic, type 2,
machine 3, entry 0x80000000, e_phoff 52, e_phentsize 32 — and
e_phnum = 0: not a single program header, in particular no PT_LOAD. -/
def elf_no_load_bytes : List Nat :=
  [127, 69, 76, 70, 0, 0, 0, 0, 0, 0, 0, 0, 0, 0, 0, 0,
   2, 0,
   3, 0,
   0, 0, 0, 0,
   0, 0, 0, 128,
   52, 0, 0, 0,
   0, 0, 0, 0,
   0, 0, 0, 0,
   52, 0,
   32, 0,
   0, 0,
   0, 0,
   0, 0,
   0, 0]

/-- Loader scenario: the filesystem serves the header-only ELF image. -/
def elf_s0 : OS :=
  { tasks := fun a =>
      if a = parent_addr then
        { state := .RUNNING, name := "shell", pid := parent_addr,
          tss := { cr3 := 0x200000, esp0 := 0x7000 } }
      else {},
    mem := { alloc := { bitmap := [], start := MEM_EXT_START,
                        size := 0, page_size := MEM_PAGE_SIZE },
             ram := fun _ _ => 0 },
    gdt := fun _ => 0, frames := fun _ => {},
    ready_list := [], sleep_list := [], task_list := [parent_addr],
    curr_task := parent_addr, mmu_page_dir := 0x200000,
    fs_file := some elf_no_load_bytes }

/-- Loader scenario with a file that is not an ELF image at all. -/
def elf_bad_s0 : OS :=
  { elf_s0 with fs_file := some [1, 2, 3] }

/-- Page directory the execve under verification would create next:
the first component of memory_create_uvm on the entry memory state
(the preceding name bookkeeping does not touch memory). -/
def execve_new_dir (s : OS) : Nat := (memory_create_uvm s.mem).1

/-- Header conditions under which the loader accepts a file, written
from the amended claim C8 for comparison with the code: a full 52-byte
header carrying the ELF magic, e_type ET_EXEC, e_machine ET_386, a
non-zero e_entry, a non-zero e_phentsize and a non-zero e_phoff — with
no requirement of any PT_LOAD program header. -/
def elf_header_ok (file : Option (List Nat)) : Bool :=
  match file with
  | none => false
  | some bytes =>
    decide (ELF_EHDR_SIZE ≤ bytes.length
      ∧ (parse_ehdr bytes).e_ident.getD 0 0 = ELF_MAGIC
      ∧ (parse_ehdr bytes).e_ident.getD 1 0 = 69
      ∧ (parse_ehdr bytes).e_ident.getD 2 0 = 76
      ∧ (parse_ehdr bytes).e_ident.getD 3 0 = 70
      ∧ (parse_ehdr bytes).e_type = ET_EXEC
      ∧ (parse_ehdr bytes).e_machine = ET_386
      ∧ (parse_ehdr bytes).e_entry ≠ 0
      ∧ (parse_ehdr bytes).e_phentsize ≠ 0
      ∧ (parse_ehdr bytes).e_phoff ≠ 0)

/-! ## Theorems for claims C6, C7, C10 -/

/-- C6: whenever mutex_lock returns, the mutex owner is the calling task
and its count is at least one; an owner re-acquiring increments the count
without blocking; and the final unlock with a non-empty wait queue hands
ownership to the FIFO head with count one in the same step as the wake. -/
theorem mutex_lock_owner_invariant (m : mutex_t) (curr : Nat)
    (hnonneg : 0 ≤ m.locked_count) :
    ((mutex_lock m curr).2 = false →
      (mutex_lock m curr).1.owner = some curr ∧ 1 ≤ (mutex_lock m curr).1.locked_count)
    ∧ (m.owner = some curr → 1 ≤ m.locked_count →
      (mutex_lock m curr).2 = false
      ∧ (mutex_lock m curr).1.owner = some curr
      ∧ (mutex_lock m curr).1.locked_count = m.locked_count + 1)
    ∧ (∀ t rest, m.owner = some curr → m.locked_count = 1 → m.wait_list = t :: rest →
      mutex_unlock m curr =
        ({ owner := some t, locked_count := 1, wait_list := rest }, some t)) := by
  refine ⟨?_, ?_, ?_⟩
  · intro hret
    unfold mutex_lock at hret ⊢
    split_ifs at hret ⊢ with h1 h2
    · refine ⟨rfl, ?_⟩
      show 1 ≤ m.locked_count + 1
      omega
    · refine ⟨h2, ?_⟩
      show 1 ≤ m.locked_count + 1
      omega
  · intro hown hcount
    have hne : ¬ m.locked_count = 0 := by omega
    unfold mutex_lock
    rw [if_neg hne, if_pos hown]
    exact ⟨rfl, hown, rfl⟩
  · intro t rest hown hone hwl
    unfold mutex_unlock
    rw [if_pos hown, hone]
    simp [hwl]

/-- Witness for mutex_lock_owner_invariant at concrete mutexes: a free
mutex taken by task 1, task 1 re-locking, and task 1 unlocking with task 2
queued. -/
theorem mutex_lock_owner_invariant_witness :
    ((mutex_lock { owner := none, locked_count := 0, wait_list := [] } 1).1.owner = some 1
      ∧ 1 ≤ (mutex_lock { owner := none, locked_count := 0, wait_list := [] } 1).1.locked_count)
    ∧ ((mutex_lock { owner := some 1, locked_count := 1, wait_list := [] } 1).2 = false
      ∧ (mutex_lock { owner := some 1, locked_count := 1, wait_list := [] } 1).1.owner = some 1
      ∧ (mutex_lock { owner := some 1, locked_count := 1, wait_list := [] } 1).1.locked_count = 1 + 1)
    ∧ mutex_unlock { owner := some 1, locked_count := 1, wait_list := [2] } 1 =
        ({ owner := some 2, locked_count := 1, wait_list := [] }, some 2) := by
  refine ⟨?_, ?_, ?_⟩
  · exact (mutex_lock_owner_invariant
      { owner := none, locked_count := 0, wait_list := [] } 1 (by decide)).1 (by decide)
  · exact (mutex_lock_owner_invariant
      { owner := some 1, locked_count := 1, wait_list := [] } 1 (by decide)).2.1 rfl (by decide)
  · exact (mutex_lock_owner_invariant
      { owner := some 1, locked_count := 1, wait_list := [2] } 1 (by decide)).2.2
      2 [] rfl rfl rfl

/-- C7: a sem_wait / sem_notify pair in which no waiter was enqueued or
woken leaves the count unchanged: the wait decrements only because
count was positive, and the notify increments only because the wait
queue stayed empty. -/
theorem sem_wait_notify_pair (sem : sem_t) (curr : Nat)
    (hpos : 0 < sem.count)
    (hnowait : (sem_wait sem curr).1.wait_list = []) :
    (sem_wait sem curr).2 = false
    ∧ (sem_notify (sem_wait sem curr).1).2 = none
    ∧ (sem_notify (sem_wait sem curr).1).1.count = sem.count := by
  unfold sem_wait at hnowait ⊢
  rw [if_pos hpos] at hnowait ⊢
  refine ⟨rfl, ?_, ?_⟩
  · unfold sem_notify
    simp only at hnowait ⊢
    rw [hnowait]
  · unfold sem_notify
    simp only at hnowait ⊢
    rw [hnowait]
    show sem.count - 1 + 1 = sem.count
    omega

/-- Witness for sem_wait_notify_pair: a semaphore with count 2 and no
waiters, task 7 performing the pair. -/
theorem sem_wait_notify_pair_witness :
    (sem_wait { count := 2, wait_list := [] } 7).2 = false
    ∧ (sem_notify (sem_wait { count := 2, wait_list := [] } 7).1).2 = none
    ∧ (sem_notify (sem_wait { count := 2, wait_list := [] } 7).1).1.count = 2 := by
  exact sem_wait_notify_pair { count := 2, wait_list := [] } 7 (by decide) (by decide)

/-- C10: a keyboard byte arriving while the focused TTY input semaphore
counts at least TTY_IBUF_SIZE is silently discarded, leaving the FIFO and
the semaphore unchanged; otherwise the byte is appended at the write
cursor and the semaphore is signalled (incremented when no reader waits).
The hypotheses say that the FIFO was created with the TTY_IBUF_SIZE
capacity tty_open gives it and that every byte in it is counted by the
semaphore. -/
theorem tty_in_discard_or_append (tty : tty_t) (ch : Nat)
    (hsize : tty.ififo.size = TTY_IBUF_SIZE)
    (hcnt : (tty.ififo.count : Int) ≤ sem_count tty.isem) :
    ((TTY_IBUF_SIZE : Int) ≤ sem_count tty.isem → tty_in tty ch = tty)
    ∧ (sem_count tty.isem < (TTY_IBUF_SIZE : Int) →
      (tty_in tty ch).ififo.count = tty.ififo.count + 1
      ∧ (tty_in tty ch).ififo.buf = tty.ififo.buf.set tty.ififo.write ch
      ∧ (tty_in tty ch).isem = (sem_notify tty.isem).1
      ∧ (tty.isem.wait_list = [] →
          (tty_in tty ch).isem.count = sem_count tty.isem + 1)) := by
  constructor
  · intro hfull
    unfold tty_in
    simp [hfull]
  · intro hroom
    have hnotfull : ¬ ((TTY_IBUF_SIZE : Int) ≤ sem_count tty.isem) := by omega
    have hfifo_room : ¬ (tty.ififo.size ≤ tty.ififo.count) := by
      intro hle
      have h1 : (TTY_IBUF_SIZE : Int) ≤ (tty.ififo.count : Int) := by
        rw [← hsize]
        exact_mod_cast hle
      omega
    unfold tty_in
    rw [if_neg hnotfull]
    refine ⟨?_, ?_, rfl, ?_⟩
    · show (tty_fifo_put tty.ififo ch).1.count = tty.ififo.count + 1
      unfold tty_fifo_put
      rw [if_neg hfifo_room]
    · show (tty_fifo_put tty.ififo ch).1.buf = tty.ififo.buf.set tty.ififo.write ch
      unfold tty_fifo_put
      rw [if_neg hfifo_room]
    · intro hempty
      show (sem_notify tty.isem).1.count = sem_count tty.isem + 1
      unfold sem_notify
      rw [hempty]
      rfl

/-- Witness for tty_in_discard_or_append at two concrete TTY states: one
with the semaphore already at the capacity (byte dropped) and one with
room (byte appended and semaphore incremented). -/
theorem tty_in_discard_or_append_witness :
    tty_in { ififo := { buf := [0, 0], size := 512, count := 0, read := 0, write := 0 },
             isem := { count := 512, wait_list := [] } } 65 =
      { ififo := { buf := [0, 0], size := 512, count := 0, read := 0, write := 0 },
        isem := { count := 512, wait_list := [] } }
    ∧ ((tty_in { ififo := { buf := [0, 0], size := 512, count := 1, read := 0, write := 1 },
                 isem := { count := 1, wait_list := [] } } 65).ififo.count = 2
      ∧ (tty_in { ififo := { buf := [0, 0], size := 512, count := 1, read := 0, write := 1 },
                  isem := { count := 1, wait_list := [] } } 65).ififo.buf = [0, 65]
      ∧ (tty_in { ififo := { buf := [0, 0], size := 512, count := 1, read := 0, write := 1 },
                  isem := { count := 1, wait_list := [] } } 65).isem.count = 2) := by
  constructor
  · exact (tty_in_discard_or_append
      { ififo := { buf := [0, 0], size := 512, count := 0, read := 0, write := 0 },
        isem := { count := 512, wait_list := [] } } 65 (by decide) (by decide)).1 (by decide)
  · have h := (tty_in_discard_or_append
      { ififo := { buf := [0, 0], size := 512, count := 1, read := 0, write := 1 },
        isem := { count := 1, wait_list := [] } } 65 (by decide) (by decide)).2 (by decide)
    exact ⟨h.1, h.2.1, by simpa using h.2.2.2 rfl⟩

/-! ## Theorems for claims C2 and C9 -/

/-- Helper: task_dispatch does not touch the sleep queue. -/
theorem task_dispatch_sleep_list_eq (s : OS) :
    (task_dispatch s).sleep_list = s.sleep_list := by
  unfold task_dispatch upd_task
  dsimp only
  split <;> rfl

/-- Helper: task_dispatch does not change any sleep tick counter. -/
theorem task_dispatch_sleep_ticks_eq (s : OS) (a : Nat) :
    ((task_dispatch s).tasks a).sleep_ticks = (s.tasks a).sleep_ticks := by
  unfold task_dispatch upd_task
  dsimp only
  split
  · dsimp only
    split <;> rfl
  · rfl

/-- C2 counterexample: from the ordinary state sched_base (idle current,
task 10 ready), task_dispatch makes task 10 the single current task with
state Running, yet task 10 is still a member of the ready list —
contradicting the claim that a Running task is never on the ready list
(task_dispatch picks the ready-queue head without dequeuing it). -/
theorem task_dispatch_leaves_running_on_ready_list :
    ((task_dispatch sched_base).tasks 10).state = .RUNNING
    ∧ (task_dispatch sched_base).curr_task = 10
    ∧ 10 ∈ (task_dispatch sched_base).ready_list := by
  refine ⟨by decide, by decide, by decide⟩

/-- C2 amended: task_dispatch always installs the ready-queue head (or
the idle task) as the single current task and, whenever that changes the
current task, marks it Running; it leaves the ready queue unchanged, so
the dispatched task remains on it.  The full claimed invariant fails:
besides the counterexample above, a slice-recycling tick leaves the
current task in state Ready, and blocking on a semaphore or mutex leaves
the blocked task in state Running, because task_set_block does not
change the state field. -/
theorem task_dispatch_installs_head (s : OS) :
    (task_dispatch s).ready_list = s.ready_list
    ∧ (task_dispatch s).curr_task = task_next_run s
    ∧ (task_next_run s ≠ s.curr_task →
        ((task_dispatch s).tasks (task_next_run s)).state = .RUNNING) := by
  unfold task_dispatch upd_task
  by_cases h : task_next_run s ≠ s.curr_task
  · rw [if_pos h]
    refine ⟨rfl, rfl, ?_⟩
    intro _
    dsimp only
    rw [if_pos rfl]
  · rw [if_neg h]
    push_neg at h
    exact ⟨rfl, h.symm, fun hc => absurd h hc⟩

/-- Witness for task_dispatch_installs_head at the concrete state
sched_base, where the dispatch changes the current task. -/
theorem task_dispatch_installs_head_witness :
    (task_dispatch sched_base).ready_list = sched_base.ready_list
    ∧ (task_dispatch sched_base).curr_task = task_next_run sched_base
    ∧ ((task_dispatch sched_base).tasks (task_next_run sched_base)).state = .RUNNING := by
  have h := task_dispatch_installs_head sched_base
  exact ⟨h.1, h.2.1, h.2.2 (by decide)⟩

/-- Helper: task_set_block does not touch the sleep queue. -/
theorem task_set_block_sleep_list_eq (s : OS) (t : Nat) :
    (task_set_block s t).sleep_list = s.sleep_list := by
  unfold task_set_block
  split <;> rfl

/-- Helper: task_set_block does not touch any task fields. -/
theorem task_set_block_tasks_eq (s : OS) (t : Nat) :
    (task_set_block s t).tasks = s.tasks := by
  unfold task_set_block
  split <;> rfl

/-- C9: sys_msleep(ms) always computes a sleep tick count of at least
one (in particular for 0 < ms < OS_TICK_MS), at least the rounding-up
ceil(ms / OS_TICK_MS) in general, stores it in the calling task's
sleep_ticks and places the task on the sleep queue. -/
theorem sys_msleep_sleeps_at_least (s : OS) (ms : Nat) :
    ((sys_msleep s ms).tasks s.curr_task).sleep_ticks = (msleep_ticks ms : Int)
    ∧ s.curr_task ∈ (sys_msleep s ms).sleep_list
    ∧ 1 ≤ msleep_ticks ms
    ∧ (ms + OS_TICK_MS - 1) / OS_TICK_MS ≤ msleep_ticks ms := by
  have hpos : 1 ≤ msleep_ticks ms := by
    unfold msleep_ticks OS_TICK_MS
    split <;> omega
  have hticks : msleep_ticks ms ≠ 0 := by omega
  refine ⟨?_, ?_, hpos, ?_⟩
  · show ((task_dispatch (task_set_sleep (task_set_block s s.curr_task) s.curr_task
        (msleep_ticks ms))).tasks s.curr_task).sleep_ticks = (msleep_ticks ms : Int)
    rw [task_dispatch_sleep_ticks_eq]
    unfold task_set_sleep
    rw [if_neg hticks]
    dsimp only [upd_task]
    rw [if_pos rfl]
  · show s.curr_task ∈ (task_dispatch (task_set_sleep (task_set_block s s.curr_task)
        s.curr_task (msleep_ticks ms))).sleep_list
    rw [task_dispatch_sleep_list_eq]
    unfold task_set_sleep
    rw [if_neg hticks]
    dsimp only [upd_task]
    rw [task_set_block_sleep_list_eq]
    exact List.mem_append_right _ (List.mem_singleton.mpr rfl)
  · unfold msleep_ticks OS_TICK_MS
    split <;> omega

/-! ## Allocator lemmas -/

/-- Helper: a foldl preserves any property its step preserves. -/
theorem foldl_preserves {α β : Type} (P : α → Prop) (f : α → β → α)
    (h : ∀ a b, P a → P (f a b)) :
    ∀ (l : List β) (a : α), P a → P (l.foldl f a) := by
  intro l
  induction l with
  | nil => intro a ha; exact ha
  | cons x xs ih => intro a ha; exact ih (f a x) (h a x ha)

/-- Helper: clearing one bit makes that bit read clear (also when it is
out of range, where bits read clear anyway). -/
theorem bitmap_set_range_single_false (bits : List Bool) (i : Nat) :
    bit_get (bitmap_set_range bits i 1 false) i = false := by
  induction bits generalizing i with
  | nil => simp [bitmap_set_range, bit_get]
  | cons b bs ih =>
    cases i with
    | zero => simp [bitmap_set_range, bit_get]
    | succ j => simpa [bitmap_set_range, bit_get] using ih j

/-- Helper: clearing bits never sets one: a clear bit stays clear. -/
theorem bitmap_set_range_false_preserve (bits : List Bool) (i n j : Nat)
    (h : bit_get bits j = false) :
    bit_get (bitmap_set_range bits i n false) j = false := by
  induction bits generalizing i n j with
  | nil => simpa [bitmap_set_range] using h
  | cons b bs ih =>
    cases i with
    | succ i2 =>
      cases j with
      | zero => simpa [bitmap_set_range, bit_get] using h
      | succ j2 =>
        have := ih i2 n j2 (by simpa [bit_get] using h)
        simpa [bitmap_set_range, bit_get] using this
    | zero =>
      cases n with
      | zero => simpa [bitmap_set_range] using h
      | succ n2 =>
        cases j with
        | zero => simp [bitmap_set_range, bit_get]
        | succ j2 =>
          have := ih 0 n2 j2 (by simpa [bit_get] using h)
          simpa [bitmap_set_range, bit_get] using this

/-- Helper: addr_free_page clears the bit of the page it frees. -/
theorem addr_free_page_clears (al : addr_alloc_t) (addr : Nat) :
    bit_get (addr_free_page al addr 1).bitmap (page_index_of al addr) = false :=
  bitmap_set_range_single_false _ _

/-- Helper: addr_free_page keeps clear bits clear. -/
theorem addr_free_page_preserve (al : addr_alloc_t) (addr n j : Nat)
    (h : bit_get al.bitmap j = false) :
    bit_get (addr_free_page al addr n).bitmap j = false :=
  bitmap_set_range_false_preserve _ _ _ _ h

/-- Helper: the pte loop of memory_destroy_uvm preserves any property
preserved by single-page frees. -/
theorem destroy_uvm_ptes_preserve (r : Ram) (tbl : Nat) (al : addr_alloc_t)
    (P : addr_alloc_t → Prop)
    (hstep : ∀ a addr, P a → P (addr_free_page a addr 1))
    (h : P al) : P (destroy_uvm_ptes r tbl al) := by
  unfold destroy_uvm_ptes
  refine foldl_preserves P _ ?_ _ _ h
  intro a j ha
  dsimp only
  split
  · exact hstep _ _ ha
  · exact ha

/-- Helper: memory_destroy_uvm preserves any property preserved by
single-page frees (it is a composition of addr_free_page calls). -/
theorem memory_destroy_uvm_preserve (m : MemSt) (pd : Nat)
    (P : addr_alloc_t → Prop)
    (hstep : ∀ a addr, P a → P (addr_free_page a addr 1))
    (h : P m.alloc) : P (memory_destroy_uvm m pd).alloc := by
  unfold memory_destroy_uvm
  split
  · exact h
  · dsimp only
    refine hstep _ _ (foldl_preserves P _ ?_ _ _ h)
    intro a k ha
    dsimp only
    split
    · exact hstep _ _ (destroy_uvm_ptes_preserve _ _ _ P hstep ha)
    · exact ha

/-- Helper: memory_destroy_uvm does not change the allocator base or
page size. -/
theorem memory_destroy_uvm_start (m : MemSt) (pd : Nat) :
    (memory_destroy_uvm m pd).alloc.start = m.alloc.start
    ∧ (memory_destroy_uvm m pd).alloc.page_size = m.alloc.page_size :=
  memory_destroy_uvm_preserve m pd
    (fun a => a.start = m.alloc.start ∧ a.page_size = m.alloc.page_size)
    (fun _ _ ha => ha) ⟨rfl, rfl⟩

/-- Helper: memory_destroy_uvm keeps clear bits clear. -/
theorem memory_destroy_uvm_bit_preserve (m : MemSt) (pd j : Nat)
    (h : bit_get m.alloc.bitmap j = false) :
    bit_get (memory_destroy_uvm m pd).alloc.bitmap j = false :=
  memory_destroy_uvm_preserve m pd (fun a => bit_get a.bitmap j = false)
    (fun a addr ha => addr_free_page_preserve a addr 1 j ha) h

/-- Helper: the final addr_free_page of memory_destroy_uvm clears the
directory page bit. -/
theorem memory_destroy_uvm_clears_dir (m : MemSt) (pd : Nat) (hpd : pd ≠ 0) :
    bit_get (memory_destroy_uvm m pd).alloc.bitmap (page_index_of m.alloc pd) = false := by
  unfold memory_destroy_uvm
  rw [if_neg hpd]
  dsimp only
  have hmeta := foldl_preserves
    (fun a : addr_alloc_t => a.start = m.alloc.start ∧ a.page_size = m.alloc.page_size)
    (fun al k =>
      let pde := ram_get m.ram pd (user_pde_start + k)
      if entry_present pde then
        addr_free_page (destroy_uvm_ptes m.ram (entry_paddr pde) al) (entry_paddr pde) 1
      else al)
    (by
      intro a k ha
      dsimp only
      split
      · exact destroy_uvm_ptes_preserve _ _ _
          (fun a2 => a2.start = m.alloc.start ∧ a2.page_size = m.alloc.page_size)
          (fun _ _ hb => hb) ha
      · exact ha)
    (List.range (PDE_CNT - user_pde_start)) m.alloc ⟨rfl, rfl⟩
  have hidx : page_index_of
      ((List.range (PDE_CNT - user_pde_start)).foldl
        (fun al k =>
          let pde := ram_get m.ram pd (user_pde_start + k)
          if entry_present pde then
            addr_free_page (destroy_uvm_ptes m.ram (entry_paddr pde) al) (entry_paddr pde) 1
          else al)
        m.alloc) pd = page_index_of m.alloc pd := by
    unfold page_index_of
    rw [hmeta.1, hmeta.2]
  rw [← hidx]
  exact addr_free_page_clears _ pd

/-- Helper: destroy clears the directory bit, indexed by the allocator
state after the destroy (base and page size are unchanged by it). -/
theorem destroy_clears_self_idx (m : MemSt) (pd : Nat) (hpd : pd ≠ 0) :
    bit_get (memory_destroy_uvm m pd).alloc.bitmap
      (page_index_of (memory_destroy_uvm m pd).alloc pd) = false := by
  have hmeta := memory_destroy_uvm_start m pd
  have hidx : page_index_of (memory_destroy_uvm m pd).alloc pd = page_index_of m.alloc pd := by
    unfold page_index_of
    rw [hmeta.1, hmeta.2]
  rw [hidx]
  exact memory_destroy_uvm_clears_dir m pd hpd

/-- Helper: memory_free_page of a kernel address clears that page bit. -/
theorem memory_free_page_kernel_clears (m : MemSt) (dir addr : Nat)
    (h : addr < MEMORY_TASK_BASE) :
    bit_get (memory_free_page m dir addr).alloc.bitmap (page_index_of m.alloc addr) = false := by
  unfold memory_free_page
  rw [if_pos h]
  exact addr_free_page_clears m.alloc addr

/-- Helper: memory_free_page of a kernel address keeps clear bits
clear. -/
theorem memory_free_page_kernel_preserve (m : MemSt) (dir addr j : Nat)
    (h : addr < MEMORY_TASK_BASE) (hj : bit_get m.alloc.bitmap j = false) :
    bit_get (memory_free_page m dir addr).alloc.bitmap j = false := by
  unfold memory_free_page
  rw [if_pos h]
  exact addr_free_page_preserve m.alloc addr 1 j hj

/-! ## Theorems for claims C1 and C4 (code bugs) -/

/-- C1: evaluation of the fork scenario.  The eager address-space copy
fails (the allocator is exhausted after the child's kernel stack and
directory were carved out), memory_copy_uvm returns (uint32_t)-1 — and
sys_fork nevertheless starts the child and returns its pid 0x40000 to
the parent, because the C test (child_task->tss.cr3 = memory_copy_uvm(..)) < 0
compares an unsigned value against zero and is never true.  The claim
(and the spec) require the child's resources to be freed and -1
returned; the child here is READY, on the ready queue, with the garbage
directory base 0xFFFFFFFF in its cr3. -/
theorem sys_fork_copy_failure_undetected :
    (sys_fork fork_s0).1 = 262144
    ∧ (sys_fork fork_s0).1 ≠ -1
    ∧ ((sys_fork fork_s0).2.tasks 262144).state = .READY
    ∧ (262144 ∈ (sys_fork fork_s0).2.ready_list)
    ∧ ((sys_fork fork_s0).2.tasks 262144).tss.cr3 = uint32_neg1 := by
  decide

/-- C4: evaluation of the sbrk scenario.  The heap end is page-aligned
at 0x80001000, sbrk(4096) needs one fresh page, the bitmap is full, so
addr_alloc_page fails — and memory_alloc_for_page_dir returns 0, which
sys_sbrk takes for success: it returns the previous heap end 0x80001000
instead of the sentinel -1 and extends heap_end to 0x80002000 with no
page backing it.  The claim (and the spec, and the function's own
"mem alloc failed" log line) require the sentinel with unchanged
bounds. -/
theorem sys_sbrk_alloc_failure_extends_heap :
    (sys_sbrk sbrk_s0 4096).1 = 2147487744
    ∧ (sys_sbrk sbrk_s0 4096).1 ≠ -1
    ∧ ((sys_sbrk sbrk_s0 4096).2.tasks 196608).heap_end = 2147491840 := by
  decide

/-! ## Theorems for claim C3 -/

/-- C3 counterexample: reaping the zombie child in the concrete state
wait_s0 returns its pid 262144 and captures status 7, but the child's
TSS GDT slot 6 (selector 48) still carries its descriptor attr 137
afterwards: sys_wait never calls gdt_free_sel, so the slot is not
released — refuting the claim that wait releases the TSS GDT slot. -/
theorem sys_wait_leaves_tss_slot_allocated :
    ((sys_wait wait_s0).map (fun r => r.1)) = some 262144
    ∧ ((sys_wait wait_s0).map (fun r => r.2.1)) = some 7
    ∧ ((sys_wait wait_s0).map (fun r => r.2.2.gdt 6)) = some 137 := by
  decide

/-- C3 amended: when the scan finds a zombie child t, sys_wait returns
its pid and captured exit status and releases its address space and its
kernel stack page (both page bits read clear afterwards, the stack page
being a kernel address), and clears the task slot — but it leaves the
GDT completely untouched: the child's TSS selector is not freed. -/
theorem sys_wait_reaps_zombie_child (s : OS) (t : Nat)
    (hfind : wait_scan s s.curr_task (List.range TASK_NR) = some t)
    (hkstack : (s.tasks t).tss.esp0 - MEM_PAGE_SIZE < MEMORY_TASK_BASE)
    (hcr3 : (s.tasks t).tss.cr3 ≠ 0) :
    sys_wait s = some (((s.tasks t).pid : Int), (s.tasks t).status, wait_reap s t)
    ∧ (wait_reap s t).gdt = s.gdt
    ∧ ((wait_reap s t).tasks t).name = ""
    ∧ ((wait_reap s t).tasks t).state = .CREATED
    ∧ bit_get (wait_reap s t).mem.alloc.bitmap
        (page_index_of (memory_destroy_uvm s.mem (s.tasks t).tss.cr3).alloc
          ((s.tasks t).tss.esp0 - MEM_PAGE_SIZE)) = false
    ∧ bit_get (wait_reap s t).mem.alloc.bitmap
        (page_index_of s.mem.alloc (s.tasks t).tss.cr3) = false := by
  refine ⟨?_, rfl, ?_, ?_, ?_, ?_⟩
  · unfold sys_wait
    rw [hfind]
  · unfold wait_reap upd_task
    dsimp only
    rw [if_pos rfl]
  · unfold wait_reap upd_task
    dsimp only
    rw [if_pos rfl]
  · unfold wait_reap
    dsimp only
    generalize hk : (s.tasks t).tss.esp0 - MEM_PAGE_SIZE = kb at hkstack ⊢
    exact memory_free_page_kernel_clears _ _ _ hkstack
  · unfold wait_reap
    dsimp only
    generalize hk : (s.tasks t).tss.esp0 - MEM_PAGE_SIZE = kb at hkstack ⊢
    refine memory_free_page_kernel_preserve _ _ _ _ hkstack ?_
    exact memory_destroy_uvm_clears_dir s.mem _ hcr3

/-- Witness for sys_wait_reaps_zombie_child at the concrete state
wait_s0 with its zombie child in slot 0 (address 262144). -/
theorem sys_wait_reaps_zombie_child_witness :
    sys_wait wait_s0 =
      some (((wait_s0.tasks 262144).pid : Int), (wait_s0.tasks 262144).status,
        wait_reap wait_s0 262144)
    ∧ (wait_reap wait_s0 262144).gdt = wait_s0.gdt
    ∧ ((wait_reap wait_s0 262144).tasks 262144).name = ""
    ∧ ((wait_reap wait_s0 262144).tasks 262144).state = .CREATED := by
  have h := sys_wait_reaps_zombie_child wait_s0 262144 (by decide) (by decide) (by decide)
  exact ⟨h.1, h.2.1, h.2.2.1, h.2.2.2.1⟩

/-! ## Theorems for claim C5 -/

/-- Helper: updating only a task name leaves every task's tss, state and
pid unchanged. -/
theorem upd_task_name_tss_eq (s : OS) (t x : Nat) (nm : String) :
    ((upd_task s t (fun tk => { tk with name := nm })).tasks x).tss = (s.tasks x).tss
    ∧ ((upd_task s t (fun tk => { tk with name := nm })).tasks x).state = (s.tasks x).state
    ∧ ((upd_task s t (fun tk => { tk with name := nm })).tasks x).pid = (s.tasks x).pid := by
  unfold upd_task
  dsimp only
  refine ⟨?_, ?_, ?_⟩ <;> (split <;> rfl)

/-- Helper: writing the load accumulator back touches only the task heap
bounds and the memory state. -/
theorem apply_load_acc_preserve (s : OS) (t : Nat) (a : LoadAcc) (x : Nat) :
    (apply_load_acc s t a).frames = s.frames
    ∧ ((apply_load_acc s t a).tasks x).state = (s.tasks x).state
    ∧ ((apply_load_acc s t a).tasks x).pid = (s.tasks x).pid
    ∧ ((apply_load_acc s t a).tasks x).tss = (s.tasks x).tss := by
  unfold apply_load_acc upd_task
  dsimp only
  refine ⟨rfl, ?_, ?_, ?_⟩ <;> (split <;> rfl)

/-- Helper: load_elf_file changes only the task heap bounds and the
memory state: frames and every task's state, pid and tss survive. -/
theorem load_elf_file_preserve (s : OS) (t : Nat) (nm : String) (pd : Nat) (x : Nat) :
    (load_elf_file s t nm pd).2.frames = s.frames
    ∧ ((load_elf_file s t nm pd).2.tasks x).state = (s.tasks x).state
    ∧ ((load_elf_file s t nm pd).2.tasks x).pid = (s.tasks x).pid
    ∧ ((load_elf_file s t nm pd).2.tasks x).tss = (s.tasks x).tss := by
  unfold load_elf_file
  cases hfs : s.fs_file with
  | none => exact ⟨rfl, rfl, rfl, rfl⟩
  | some bytes =>
    dsimp only
    split_ifs
    · exact ⟨rfl, rfl, rfl, rfl⟩
    · exact ⟨rfl, rfl, rfl, rfl⟩
    · exact ⟨rfl, rfl, rfl, rfl⟩
    · exact ⟨rfl, rfl, rfl, rfl⟩
    · split
      · exact apply_load_acc_preserve s t _ x
      · exact apply_load_acc_preserve s t _ x

/-- Helper: behaviour of the exec_failed cleanup with a created new
directory: -1 is returned, the old directory is back in the task cr3 and
the MMU, the new one is destroyed, and frames and all other task fields
survive. -/
theorem exec_failed_spec (s : OS) (t old_pd new_pd : Nat) (hnew : new_pd ≠ 0) (x : Nat) :
    (exec_failed s t old_pd new_pd).1 = -1
    ∧ ((exec_failed s t old_pd new_pd).2.tasks t).tss.cr3 = old_pd
    ∧ (exec_failed s t old_pd new_pd).2.mmu_page_dir = old_pd
    ∧ (exec_failed s t old_pd new_pd).2.frames = s.frames
    ∧ ((exec_failed s t old_pd new_pd).2.tasks x).state = (s.tasks x).state
    ∧ ((exec_failed s t old_pd new_pd).2.tasks x).pid = (s.tasks x).pid
    ∧ (exec_failed s t old_pd new_pd).2.mem = memory_destroy_uvm s.mem new_pd := by
  unfold exec_failed upd_task
  rw [if_pos hnew]
  dsimp only
  refine ⟨rfl, ?_, rfl, rfl, ?_, ?_, rfl⟩
  · rw [if_pos rfl]
  · split <;> rfl
  · split <;> rfl

/-- C5 counterexample: in the concrete state exec_s0 the task is named a
and execve of the missing program b fails after the new page directory
was created (the load fails).  The old directory 0x200000 is reinstalled
and -1 returned — but the recorded task name has already been
overwritten to b: the observable state of the surviving process is not
unchanged, contrary to the claim. -/
theorem sys_execve_failure_changes_name :
    (sys_execve exec_s0 "b" []).1 = -1
    ∧ ((sys_execve exec_s0 "b" []).2.tasks 196608).name = "b"
    ∧ (exec_s0.tasks 196608).name = "a"
    ∧ ((sys_execve exec_s0 "b" []).2.tasks 196608).tss.cr3 = 2097152 := by
  decide

/-- C5 amended: every execve that fails after the new page directory was
created returns -1, reinstalls the old page directory in the task cr3
and the MMU register, destroys the new directory (whose page bit reads
clear afterwards), leaves the saved syscall frames untouched and
preserves the task's state and pid.  The claim's further assertion that
the process survives with name and heap bounds unchanged is refuted by
the counterexample: the name is overwritten before the load, and heap
bounds updated by partially loaded segments are not rolled back. -/
theorem sys_execve_failure_restores_directory (s : OS) (name : String) (argv : List String)
    (hnew : (memory_create_uvm s.mem).1 ≠ 0)
    (hret : (sys_execve s name argv).1 = -1) :
    ((sys_execve s name argv).2.tasks s.curr_task).tss.cr3 = (s.tasks s.curr_task).tss.cr3
    ∧ (sys_execve s name argv).2.mmu_page_dir = (s.tasks s.curr_task).tss.cr3
    ∧ bit_get (sys_execve s name argv).2.mem.alloc.bitmap
        (page_index_of (sys_execve s name argv).2.mem.alloc (memory_create_uvm s.mem).1) = false
    ∧ (sys_execve s name argv).2.frames = s.frames
    ∧ ((sys_execve s name argv).2.tasks s.curr_task).state = (s.tasks s.curr_task).state
    ∧ ((sys_execve s name argv).2.tasks s.curr_task).pid = (s.tasks s.curr_task).pid := by
  unfold sys_execve at hret ⊢
  dsimp only at hret ⊢
  split_ifs at hret ⊢ with h1 h2 h3 h4
  · exact absurd h1 hnew
  · -- the load failed
    refine ⟨?_, ?_, ?_, ?_, ?_, ?_⟩
    · exact ((exec_failed_spec _ _ _ _ h1 s.curr_task).2.1).trans
        (congrArg tss_t.cr3 (upd_task_name_tss_eq s s.curr_task s.curr_task _).1)
    · exact ((exec_failed_spec _ _ _ _ h1 s.curr_task).2.2.1).trans
        (congrArg tss_t.cr3 (upd_task_name_tss_eq s s.curr_task s.curr_task _).1)
    · exact (exec_failed_spec _ _ _ _ h1 s.curr_task).2.2.2.2.2.2 ▸
        destroy_clears_self_idx _ _ h1
    · exact ((exec_failed_spec _ _ _ _ h1 s.curr_task).2.2.2.1).trans
        (load_elf_file_preserve _ s.curr_task name _ s.curr_task).1
    · exact ((exec_failed_spec _ _ _ _ h1 s.curr_task).2.2.2.2.1).trans
        (((load_elf_file_preserve _ s.curr_task name _ s.curr_task).2.1).trans
          (upd_task_name_tss_eq s s.curr_task s.curr_task _).2.1)
    · exact ((exec_failed_spec _ _ _ _ h1 s.curr_task).2.2.2.2.2.1).trans
        (((load_elf_file_preserve _ s.curr_task name _ s.curr_task).2.2.1).trans
          (upd_task_name_tss_eq s s.curr_task s.curr_task _).2.2)
  · -- the user stack allocation failed
    refine ⟨?_, ?_, ?_, ?_, ?_, ?_⟩
    · exact ((exec_failed_spec _ _ _ _ h1 s.curr_task).2.1).trans
        (congrArg tss_t.cr3 (upd_task_name_tss_eq s s.curr_task s.curr_task _).1)
    · exact ((exec_failed_spec _ _ _ _ h1 s.curr_task).2.2.1).trans
        (congrArg tss_t.cr3 (upd_task_name_tss_eq s s.curr_task s.curr_task _).1)
    · exact (exec_failed_spec _ _ _ _ h1 s.curr_task).2.2.2.2.2.2 ▸
        destroy_clears_self_idx _ _ h1
    · exact ((exec_failed_spec _ _ _ _ h1 s.curr_task).2.2.2.1).trans
        (load_elf_file_preserve _ s.curr_task name _ s.curr_task).1
    · exact ((exec_failed_spec _ _ _ _ h1 s.curr_task).2.2.2.2.1).trans
        (((load_elf_file_preserve _ s.curr_task name _ s.curr_task).2.1).trans
          (upd_task_name_tss_eq s s.curr_task s.curr_task _).2.1)
    · exact ((exec_failed_spec _ _ _ _ h1 s.curr_task).2.2.2.2.2.1).trans
        (((load_elf_file_preserve _ s.curr_task name _ s.curr_task).2.2.1).trans
          (upd_task_name_tss_eq s s.curr_task s.curr_task _).2.2)
  · -- the argument copy failed
    refine ⟨?_, ?_, ?_, ?_, ?_, ?_⟩
    · exact ((exec_failed_spec _ _ _ _ h1 s.curr_task).2.1).trans
        (congrArg tss_t.cr3 (upd_task_name_tss_eq s s.curr_task s.curr_task _).1)
    · exact ((exec_failed_spec _ _ _ _ h1 s.curr_task).2.2.1).trans
        (congrArg tss_t.cr3 (upd_task_name_tss_eq s s.curr_task s.curr_task _).1)
    · exact (exec_failed_spec _ _ _ _ h1 s.curr_task).2.2.2.2.2.2 ▸
        destroy_clears_self_idx _ _ h1
    · exact ((exec_failed_spec _ _ _ _ h1 s.curr_task).2.2.2.1).trans
        (load_elf_file_preserve _ s.curr_task name _ s.curr_task).1
    · exact ((exec_failed_spec _ _ _ _ h1 s.curr_task).2.2.2.2.1).trans
        (((load_elf_file_preserve _ s.curr_task name _ s.curr_task).2.1).trans
          (upd_task_name_tss_eq s s.curr_task s.curr_task _).2.1)
    · exact ((exec_failed_spec _ _ _ _ h1 s.curr_task).2.2.2.2.2.1).trans
        (((load_elf_file_preserve _ s.curr_task name _ s.curr_task).2.2.1).trans
          (upd_task_name_tss_eq s s.curr_task s.curr_task _).2.2)

/-- Witness for sys_execve_failure_restores_directory at the concrete
failing execve of exec_s0 (new directory 0x100000 created, load of the
missing file b fails). -/
theorem sys_execve_failure_restores_directory_witness :
    ((sys_execve exec_s0 "b" []).2.tasks exec_s0.curr_task).tss.cr3 =
      (exec_s0.tasks exec_s0.curr_task).tss.cr3
    ∧ (sys_execve exec_s0 "b" []).2.mmu_page_dir = (exec_s0.tasks exec_s0.curr_task).tss.cr3
    ∧ bit_get (sys_execve exec_s0 "b" []).2.mem.alloc.bitmap
        (page_index_of (sys_execve exec_s0 "b" []).2.mem.alloc
          (memory_create_uvm exec_s0.mem).1) = false
    ∧ (sys_execve exec_s0 "b" []).2.frames = exec_s0.frames := by
  have h := sys_execve_failure_restores_directory exec_s0 "b" [] (by decide) (by decide)
  exact ⟨h.1, h.2.1, h.2.2.1, h.2.2.2.1⟩

/-! ## Theorems for claim C8 -/

/-- C8 counterexample: the loader accepts the header-only image
elf_no_load_bytes, which contains not a single program header (e_phnum
is zero), and returns its entry 0x80000000 — refuting the claimed
requirement of at least one PT_LOAD segment. -/
theorem load_elf_file_accepts_no_ptload :
    (parse_ehdr elf_no_load_bytes).e_phnum = 0
    ∧ (load_elf_file elf_s0 196608 "p" 2097152).1 = 2147483648 := by
  decide

/-- Helper: whenever the header conditions fail, load_elf_file returns
the 0 failure value. -/
theorem load_elf_file_rejects (s : OS) (t : Nat) (nm : String) (pd : Nat)
    (hbad : elf_header_ok s.fs_file = false) :
    (load_elf_file s t nm pd).1 = 0 := by
  unfold load_elf_file
  cases hfs : s.fs_file with
  | none => rfl
  | some bytes =>
    rw [hfs] at hbad
    dsimp only
    split_ifs with h1 h2 h3 h4
    · rfl
    · rfl
    · rfl
    · rfl
    · exfalso
      push_neg at h2 h3 h4
      unfold elf_header_ok at hbad
      have hnot := of_decide_eq_false hbad
      unfold file_read_cnt at h1
      have hlen : ELF_EHDR_SIZE ≤ bytes.length := by
        unfold ELF_EHDR_SIZE at h1 ⊢
        omega
      exact hnot ⟨hlen, h2.1, h2.2.1, h2.2.2.1, h2.2.2.2,
        h3.1, h3.2.1, h3.2.2, h4.1, h4.2⟩

/-- C8 amended: the loader accepts a file only if it has a full 52-byte
ELF header with the magic bytes, e_type 2, e_machine 3, a non-zero
e_entry, a positive e_phentsize — and additionally a non-zero e_phoff;
no PT_LOAD program header is required (see the counterexample).  Every
file violating one of these header conditions is rejected: the load
returns 0 and execve returns -1. -/
theorem elf_bad_header_rejected (s : OS) (nm : String) (pd : Nat)
    (argv : List String) (hbad : elf_header_ok s.fs_file = false) :
    (load_elf_file s s.curr_task nm pd).1 = 0
    ∧ (sys_execve s nm argv).1 = -1 := by
  refine ⟨load_elf_file_rejects s s.curr_task nm pd hbad, ?_⟩
  unfold sys_execve
  dsimp only
  split_ifs with h1 h2 h3 h4
  · unfold exec_failed
    split <;> rfl
  · unfold exec_failed
    split <;> rfl
  · exact (h2 (load_elf_file_rejects _ s.curr_task nm _ hbad)).elim
  · exact (h2 (load_elf_file_rejects _ s.curr_task nm _ hbad)).elim
  · exact (h2 (load_elf_file_rejects _ s.curr_task nm _ hbad)).elim

/-- Witness for elf_bad_header_rejected at the concrete state elf_bad_s0
whose file is the three bytes 1, 2, 3. -/
theorem elf_bad_header_rejected_witness :
    (load_elf_file elf_bad_s0 elf_bad_s0.curr_task "p" 2097152).1 = 0
    ∧ (sys_execve elf_bad_s0 "p" []).1 = -1 := by
  exact elf_bad_header_rejected elf_bad_s0 "p" 2097152 [] (by decide)

end ZhOS
